import Mathlib

/-!
# Virtual fingerprint HAL: the session state machine

A shallow embedding of `aidl/virtual/fingerprint/Session.cpp`.

* The two state fields of a `Session` and the three private transitions
  (`scheduleStateOrCrash`, `enterStateOrCrash`, `enterIdling`) are pure functions.
* A `CHECK` that fails aborts the process: a step that can abort returns
  `Except World World`, the error carrying the world at the moment of the abort.
* Every call that `Session.cpp` makes on a collaborator (the Engine, the callback
  sink, the binder death recipient) is appended to `World.trace`.
* A lambda handed to `mWorker->schedule` is a `Callable`; its body is the list of
  statements `Callable.stmts`, executed one statement per worker step so that calls
  arriving on the caller thread can interleave with a running task.
-/

namespace Fingerprint

/-! ## Data model -/

/-- States of a session, as named in `Session.cpp` (the enumeration itself is declared
in `Session.h`). -/
inductive SessionState where
  | IDLING
  | CLOSED
  | GENERATING_CHALLENGE
  | REVOKING_CHALLENGE
  | ENROLLING
  | AUTHENTICATING
  | DETECTING_INTERACTION
  | ENUMERATING_ENROLLMENTS
  | REMOVING_ENROLLMENTS
  | GETTING_AUTHENTICATOR_ID
  | INVALIDATING_AUTHENTICATOR_ID
  | RESETTING_LOCKOUT
  deriving DecidableEq, Repr

/-- An operation state is any state other than `IDLING` and `CLOSED`. -/
def SessionState.isOperation (s : SessionState) : Bool :=
  s != .IDLING && s != .CLOSED

/-- Error kinds of the callback interface; only `CANCELED` is produced by `Session.cpp`. -/
inductive Error where
  | UNKNOWN
  | HW_UNAVAILABLE
  | UNABLE_TO_PROCESS
  | TIMEOUT
  | NO_SPACE
  | CANCELED
  | UNABLE_TO_REMOVE
  | VENDOR
  | BAD_CALIBRATION
  | POWER_PRESS
  deriving DecidableEq, Repr

/-- A hardware authentication token. `Session.cpp` only copies it into the task and
hands it to the Engine, so it is kept as its serialized bytes. -/
structure HardwareAuthToken where
  bytes : List Nat
  deriving DecidableEq, Repr

/-- A C++ `float` argument, kept as its 32-bit pattern: `Session.cpp` only passes the
value through to the Engine. -/
abbrev F32 := Nat

/-- Return status of a binder call (`ndk::ScopedAStatus`). -/
inductive Status where
  | ok
  | error (code : Int)
  deriving DecidableEq, Repr

/-- Calls on the Engine made by `Session.cpp`. A `cancFuture` argument is the index of
the cancellation promise whose future the task captured. -/
inductive EngineCall where
  | generateChallengeImpl
  | revokeChallengeImpl (challenge : Int)
  | enrollImpl (hat : HardwareAuthToken) (cancFuture : Nat)
  | authenticateImpl (operationId : Int) (cancFuture : Nat)
  | detectInteractionImpl (cancFuture : Nat)
  | enumerateEnrollmentsImpl
  | removeEnrollmentsImpl (enrollmentIds : List Int)
  | getAuthenticatorIdImpl
  | invalidateAuthenticatorIdImpl
  | resetLockoutImpl (hat : HardwareAuthToken)
  | notifyFingerdown
  | onPointerDownImpl (pointerId x y : Int) (minor major : F32)
  | onPointerUpImpl (pointerId : Int)
  | onUiReadyImpl
  deriving DecidableEq, Repr

/-- Calls on the client callback sink `mCb` made by `Session.cpp`. -/
inductive CallbackCall where
  | onError (error : Error) (vendorCode : Int)
  | onSessionClosed
  deriving DecidableEq, Repr

/-- One call of `Session.cpp` on a collaborator. -/
inductive Event where
  | engine (c : EngineCall)
  | callback (c : CallbackCall)
  | deathRecipientDelete
  deriving DecidableEq, Repr

/-- Is the event a call on the Engine? -/
def Event.isEngine : Event → Bool
  | .engine _ => true
  | _ => false

/-- Is the event a call on the callback sink? -/
def Event.isCallback : Event → Bool
  | .callback _ => true
  | _ => false

/-- The fields of `Session` that the state machine reads and writes. -/
structure Session where
  mSensorId : Int
  mUserId : Int
  mScheduledState : SessionState
  mCurrentState : SessionState
  deriving DecidableEq, Repr

/-- One statement of a task body. -/
inductive Stmt where
  /-- The call `enterStateOrCrash(state)`. -/
  | enterStateOrCrash (state : SessionState)
  /-- A call on the Engine. -/
  | engine (c : EngineCall)
  /-- The conditional `if (shouldCancel(cancFuture)) mCb->onError(CANCELED, 0) else <Engine call>`. -/
  | cancelOrEngine (cancFuture : Nat) (c : EngineCall)
  /-- The call `enterIdling()`. -/
  | enterIdling
  deriving DecidableEq, Repr

/-- The lambdas that `Session.cpp` hands to `mWorker->schedule`, with their captures. -/
inductive Callable where
  | generateChallenge
  | revokeChallenge (challenge : Int)
  | enroll (hat : HardwareAuthToken) (cancFuture : Nat)
  | authenticate (operationId : Int) (cancFuture : Nat)
  | detectInteraction (cancFuture : Nat)
  | enumerateEnrollments
  | removeEnrollments (enrollmentIds : List Int)
  | getAuthenticatorId
  | invalidateAuthenticatorId
  | resetLockout (hat : HardwareAuthToken)
  | onPointerDown (pointerId x y : Int) (minor major : F32)
  | onPointerUp (pointerId : Int)
  | onUiReady
  deriving DecidableEq, Repr

/-- The session together with its collaborators.

* `queue`: the pending tasks of the worker, oldest first.
* `running`: the statements the worker still has to execute of the task it dequeued.
* `promises`: one flag per cancellation promise created so far, `true` once set.
* `trace`: the calls made on the Engine, the callback sink and the death recipient. -/
structure World where
  session : Session
  queue : List Callable
  running : List Stmt
  promises : List Bool
  trace : List Event
  deriving DecidableEq, Repr

/-- A binder call returns its status, the cancellation handle written to `*out` (for
the cancelable operations) and the resulting world. -/
structure Reply where
  status : Status
  out : Option Nat
  world : World
  deriving DecidableEq, Repr

/-! ## Collaborators -/

/-- Modelled from the spec: `WorkerThread::schedule` (thread/WorkerThread.h is not among
the sources). The worker is a FIFO executor: scheduling enqueues the task behind the
pending ones and returns. -/
def World.schedule (w : World) (task : Callable) : World :=
  { w with queue := w.queue ++ [task] }

/-- Modelled from the spec: `shouldCancel` (util/CancellationSignal.h is not among the
sources). A non-blocking poll of the cancellation signal: true exactly when the promise
has been set; a promise that was not yet set reads as not canceled. -/
def World.shouldCancel (w : World) (cancFuture : Nat) : Bool :=
  w.promises.getD cancFuture false

/-- Modelled from the spec: firing the cancel handle returned by a cancelable operation
(`CancellationSignal::cancel`, not among the sources). Firing sets the promise; firing
again changes nothing. -/
def World.cancel (w : World) (handle : Nat) : World :=
  { w with promises := w.promises.set handle true }

/-- Record a call on a collaborator. -/
def World.emit (w : World) (e : Event) : World :=
  { w with trace := w.trace ++ [e] }

/-! ## The private transitions of `Session` -/

/-- The method `Session::scheduleStateOrCrash`: both `CHECK`s are commented out in the
source, so the only effect is the assignment. -/
def Session.scheduleStateOrCrash (s : Session) (state : SessionState) : Session :=
  { s with mScheduledState := state }

/-- The method `Session::enterStateOrCrash`: `none` is the failed `CHECK`. -/
def Session.enterStateOrCrash (s : Session) (state : SessionState) : Option Session :=
  if s.mScheduledState = state then
    some { s with mCurrentState := state, mScheduledState := .IDLING }
  else
    none

/-- The method `Session::enterIdling`. -/
def Session.enterIdling (s : Session) : Session :=
  if s.mCurrentState ≠ .CLOSED then { s with mCurrentState := .IDLING } else s

/-- The method `Session::isClosed`. -/
def Session.isClosed (s : Session) : Bool :=
  s.mCurrentState == .CLOSED

/-- Lifting of `Session.scheduleStateOrCrash` to the world. -/
def World.scheduleStateOrCrash (w : World) (state : SessionState) : World :=
  { w with session := w.session.scheduleStateOrCrash state }

/-- Lifting of `Session.enterStateOrCrash` to the world: a failed `CHECK` aborts, and
the error carries the world as it was at the abort. -/
def World.enterStateOrCrash (w : World) (state : SessionState) : Except World World :=
  match w.session.enterStateOrCrash state with
  | some s => .ok { w with session := s }
  | none => .error w

/-- Lifting of `Session.enterIdling` to the world. -/
def World.enterIdling (w : World) : World :=
  { w with session := w.session.enterIdling }

/-! ## Task bodies -/

/-- The body of each lambda, statement by statement. -/
def Callable.stmts : Callable → List Stmt
  | .generateChallenge =>
      [.enterStateOrCrash .GENERATING_CHALLENGE, .engine .generateChallengeImpl, .enterIdling]
  | .revokeChallenge challenge =>
      [.enterStateOrCrash .REVOKING_CHALLENGE, .engine (.revokeChallengeImpl challenge),
        .enterIdling]
  | .enroll hat cancFuture =>
      [.enterStateOrCrash .ENROLLING, .cancelOrEngine cancFuture (.enrollImpl hat cancFuture),
        .enterIdling]
  | .authenticate operationId cancFuture =>
      [.enterStateOrCrash .AUTHENTICATING,
        .cancelOrEngine cancFuture (.authenticateImpl operationId cancFuture), .enterIdling]
  | .detectInteraction cancFuture =>
      [.enterStateOrCrash .DETECTING_INTERACTION,
        .cancelOrEngine cancFuture (.detectInteractionImpl cancFuture), .enterIdling]
  | .enumerateEnrollments =>
      [.enterStateOrCrash .ENUMERATING_ENROLLMENTS, .engine .enumerateEnrollmentsImpl,
        .enterIdling]
  | .removeEnrollments enrollmentIds =>
      [.enterStateOrCrash .REMOVING_ENROLLMENTS, .engine (.removeEnrollmentsImpl enrollmentIds),
        .enterIdling]
  | .getAuthenticatorId =>
      [.enterStateOrCrash .GETTING_AUTHENTICATOR_ID, .engine .getAuthenticatorIdImpl,
        .enterIdling]
  | .invalidateAuthenticatorId =>
      [.enterStateOrCrash .INVALIDATING_AUTHENTICATOR_ID, .engine .invalidateAuthenticatorIdImpl,
        .enterIdling]
  | .resetLockout hat =>
      [.enterStateOrCrash .RESETTING_LOCKOUT, .engine (.resetLockoutImpl hat), .enterIdling]
  | .onPointerDown pointerId x y minor major =>
      [.engine (.onPointerDownImpl pointerId x y minor major), .enterIdling]
  | .onPointerUp pointerId =>
      [.engine (.onPointerUpImpl pointerId), .enterIdling]
  | .onUiReady =>
      [.engine .onUiReadyImpl, .enterIdling]

/-- Execute one statement of a task body. -/
def Stmt.exec (s : Stmt) (w : World) : Except World World :=
  match s with
  | .enterStateOrCrash state => w.enterStateOrCrash state
  | .engine c => .ok (w.emit (.engine c))
  | .cancelOrEngine cancFuture c =>
      if w.shouldCancel cancFuture then
        .ok (w.emit (.callback (.onError .CANCELED 0)))
      else
        .ok (w.emit (.engine c))
  | .enterIdling => .ok w.enterIdling

/-- Execute statements in sequence, stopping at the first abort. -/
def execAll : List Stmt → World → Except World World
  | [], w => .ok w
  | s :: rest, w =>
      match s.exec w with
      | .ok w' => execAll rest w'
      | .error e => .error e

/-- Run a task from its first statement to its last without interruption. -/
def Callable.run (task : Callable) (w : World) : Except World World :=
  execAll task.stmts w

/-- The state that the task passes to `enterStateOrCrash` in its first statement, if its
first statement is that call. -/
def Callable.enterState (task : Callable) : Option SessionState :=
  match task.stmts with
  | .enterStateOrCrash state :: _ => some state
  | _ => none

/-! ## The binder calls of `Session` -/

/-- The method `Session::generateChallenge`. -/
def generateChallenge (w : World) : Reply :=
  let w := w.scheduleStateOrCrash .GENERATING_CHALLENGE
  let w := w.schedule .generateChallenge
  { status := .ok, out := none, world := w }

/-- The method `Session::revokeChallenge`. -/
def revokeChallenge (challenge : Int) (w : World) : Reply :=
  let w := w.scheduleStateOrCrash .REVOKING_CHALLENGE
  let w := w.schedule (.revokeChallenge challenge)
  { status := .ok, out := none, world := w }

/-- The method `Session::enroll`: the new promise is not set; its future is captured by
the task and the promise is returned to the caller wrapped as the cancel handle. -/
def enroll (hat : HardwareAuthToken) (w : World) : Reply :=
  let w := w.scheduleStateOrCrash .ENROLLING
  let cancFuture := w.promises.length
  let w := { w with promises := w.promises ++ [false] }
  let w := w.schedule (.enroll hat cancFuture)
  { status := .ok, out := some cancFuture, world := w }

/-- The method `Session::authenticate`. -/
def authenticate (operationId : Int) (w : World) : Reply :=
  let w := w.scheduleStateOrCrash .AUTHENTICATING
  let cancFuture := w.promises.length
  let w := { w with promises := w.promises ++ [false] }
  let w := w.schedule (.authenticate operationId cancFuture)
  { status := .ok, out := some cancFuture, world := w }

/-- The method `Session::detectInteraction`. -/
def detectInteraction (w : World) : Reply :=
  let w := w.scheduleStateOrCrash .DETECTING_INTERACTION
  let cancFuture := w.promises.length
  let w := { w with promises := w.promises ++ [false] }
  let w := w.schedule (.detectInteraction cancFuture)
  { status := .ok, out := some cancFuture, world := w }

/-- The method `Session::enumerateEnrollments`. -/
def enumerateEnrollments (w : World) : Reply :=
  let w := w.scheduleStateOrCrash .ENUMERATING_ENROLLMENTS
  let w := w.schedule .enumerateEnrollments
  { status := .ok, out := none, world := w }

/-- The method `Session::removeEnrollments`. -/
def removeEnrollments (enrollmentIds : List Int) (w : World) : Reply :=
  let w := w.scheduleStateOrCrash .REMOVING_ENROLLMENTS
  let w := w.schedule (.removeEnrollments enrollmentIds)
  { status := .ok, out := none, world := w }

/-- The method `Session::getAuthenticatorId`. -/
def getAuthenticatorId (w : World) : Reply :=
  let w := w.scheduleStateOrCrash .GETTING_AUTHENTICATOR_ID
  let w := w.schedule .getAuthenticatorId
  { status := .ok, out := none, world := w }

/-- The method `Session::invalidateAuthenticatorId`. -/
def invalidateAuthenticatorId (w : World) : Reply :=
  let w := w.scheduleStateOrCrash .INVALIDATING_AUTHENTICATOR_ID
  let w := w.schedule .invalidateAuthenticatorId
  { status := .ok, out := none, world := w }

/-- The method `Session::resetLockout`. -/
def resetLockout (hat : HardwareAuthToken) (w : World) : Reply :=
  let w := w.scheduleStateOrCrash .RESETTING_LOCKOUT
  let w := w.schedule (.resetLockout hat)
  { status := .ok, out := none, world := w }

/-- The method `Session::close`: the idle-state `CHECK` is commented out in the source. -/
def close (w : World) : Reply :=
  let w := { w with session := { w.session with mCurrentState := .CLOSED } }
  let w := w.emit (.callback .onSessionClosed)
  let w := w.emit .deathRecipientDelete
  { status := .ok, out := none, world := w }

/-- The method `Session::onPointerDown`. -/
def onPointerDown (pointerId x y : Int) (minor major : F32) (w : World) : Reply :=
  let w := w.emit (.engine .notifyFingerdown)
  let w := w.schedule (.onPointerDown pointerId x y minor major)
  { status := .ok, out := none, world := w }

/-- The method `Session::onPointerUp`. -/
def onPointerUp (pointerId : Int) (w : World) : Reply :=
  let w := w.schedule (.onPointerUp pointerId)
  { status := .ok, out := none, world := w }

/-- The method `Session::onUiReady`. -/
def onUiReady (w : World) : Reply :=
  let w := w.schedule .onUiReady
  { status := .ok, out := none, world := w }

/-- The cookie registered with the death recipient: null, or this session. -/
inductive Cookie where
  | null
  | session
  deriving DecidableEq, Repr

/-- The function `onClientDeath`. -/
def onClientDeath (cookie : Cookie) (w : World) : World :=
  match cookie with
  | .null => w
  | .session => if !w.session.isClosed then (close w).world else w

/-! ## The session as a transition system -/

/-- The binder calls a client can make on a session. -/
inductive Call where
  | generateChallenge
  | revokeChallenge (challenge : Int)
  | enroll (hat : HardwareAuthToken)
  | authenticate (operationId : Int)
  | detectInteraction
  | enumerateEnrollments
  | removeEnrollments (enrollmentIds : List Int)
  | getAuthenticatorId
  | invalidateAuthenticatorId
  | resetLockout (hat : HardwareAuthToken)
  | close
  | onPointerDown (pointerId x y : Int) (minor major : F32)
  | onPointerUp (pointerId : Int)
  | onUiReady
  deriving DecidableEq, Repr

/-- Dispatch of a binder call to the method of the same name. -/
def Call.dispatch : Call → World → Reply
  | .generateChallenge => Fingerprint.generateChallenge
  | .revokeChallenge challenge => Fingerprint.revokeChallenge challenge
  | .enroll hat => Fingerprint.enroll hat
  | .authenticate operationId => Fingerprint.authenticate operationId
  | .detectInteraction => Fingerprint.detectInteraction
  | .enumerateEnrollments => Fingerprint.enumerateEnrollments
  | .removeEnrollments enrollmentIds => Fingerprint.removeEnrollments enrollmentIds
  | .getAuthenticatorId => Fingerprint.getAuthenticatorId
  | .invalidateAuthenticatorId => Fingerprint.invalidateAuthenticatorId
  | .resetLockout hat => Fingerprint.resetLockout hat
  | .close => Fingerprint.close
  | .onPointerDown pointerId x y minor major => Fingerprint.onPointerDown pointerId x y minor major
  | .onPointerUp pointerId => Fingerprint.onPointerUp pointerId
  | .onUiReady => Fingerprint.onUiReady

/-- The session state that names an operation kind; `none` for `close` and for the
pointer and UI signals, which are not operation kinds. -/
def Call.kindState : Call → Option SessionState
  | .generateChallenge => some .GENERATING_CHALLENGE
  | .revokeChallenge _ => some .REVOKING_CHALLENGE
  | .enroll _ => some .ENROLLING
  | .authenticate _ => some .AUTHENTICATING
  | .detectInteraction => some .DETECTING_INTERACTION
  | .enumerateEnrollments => some .ENUMERATING_ENROLLMENTS
  | .removeEnrollments _ => some .REMOVING_ENROLLMENTS
  | .getAuthenticatorId => some .GETTING_AUTHENTICATOR_ID
  | .invalidateAuthenticatorId => some .INVALIDATING_AUTHENTICATOR_ID
  | .resetLockout _ => some .RESETTING_LOCKOUT
  | .close => none
  | .onPointerDown _ _ _ _ _ => none
  | .onPointerUp _ => none
  | .onUiReady => none

/-- The cancelable operations: the calls that return a cancel handle. -/
def Call.isCancelable : Call → Bool
  | .enroll _ => true
  | .authenticate _ => true
  | .detectInteraction => true
  | _ => false

/-- One step of the worker thread: with a task in progress, execute its next statement;
otherwise dequeue the oldest pending task, if there is one. -/
def workerStep (w : World) : Except World World :=
  match w.running with
  | s :: rest =>
      match s.exec w with
      | .ok w' => .ok { w' with running := rest }
      | .error e => .error e
  | [] =>
      match w.queue with
      | [] => .ok w
      | task :: pending => .ok { w with queue := pending, running := task.stmts }

/-- What can happen to a session: a binder call arrives, the client fires a cancel
handle, the death recipient reports the death of the client, or the worker makes a
step. -/
inductive Action where
  | call (c : Call)
  | cancel (handle : Nat)
  | clientDeath
  | worker
  deriving DecidableEq, Repr

/-- One transition of the system. -/
def step (a : Action) (w : World) : Except World World :=
  match a with
  | .call c => .ok (c.dispatch w).world
  | .cancel handle => .ok (w.cancel handle)
  | .clientDeath => .ok (onClientDeath .session w)
  | .worker => workerStep w

/-- Execute a sequence of transitions, stopping at the first abort. -/
def run : List Action → World → Except World World
  | [], w => .ok w
  | a :: rest, w =>
      match step a w with
      | .ok w' => run rest w'
      | .error e => .error e

/-- The values that `currentState` takes along a run: one entry for each transition
that changes it, up to the first abort. -/
def history : List Action → World → List SessionState
  | [], _ => []
  | a :: rest, w =>
      match step a w with
      | .ok w' =>
          if w'.session.mCurrentState = w.session.mCurrentState then history rest w'
          else w'.session.mCurrentState :: history rest w'
      | .error _ => []

/-- The world right after the constructor of `Session` has run with valid arguments:
both states `IDLING`, nothing scheduled on the worker. -/
def World.fresh (sensorId userId : Int) : World :=
  { session :=
      { mSensorId := sensorId, mUserId := userId, mScheduledState := .IDLING,
        mCurrentState := .IDLING },
    queue := [], running := [], promises := [], trace := [] }

/-! ## Vocabulary of the properties -/

/-- The single call a cancelable task makes: the CANCELED report when the promise is
set, the Engine call otherwise. -/
def cancelableAction (w : World) (cancFuture : Nat) (c : EngineCall) : Event :=
  if w.shouldCancel cancFuture then .callback (.onError .CANCELED 0) else .engine c

/-- Both state fields hold an operation state at once: two operations in flight. -/
def World.twoInFlight (w : World) : Bool :=
  w.session.mScheduledState.isOperation && w.session.mCurrentState.isOperation

/-- The discipline under which a new operation may be requested: an operation request is
made only while `currentState` is not an operation state. Every other transition is
always allowed. -/
def Action.allowed (a : Action) (w : World) : Bool :=
  match a with
  | .call c => c.kindState.isNone || !w.session.mCurrentState.isOperation
  | _ => true

/-- Every transition of the sequence, up to the first abort, is allowed in the world in
which it is taken. -/
def admissible : List Action → World → Bool
  | [], _ => true
  | a :: rest, w =>
      a.allowed w &&
        match step a w with
        | .ok w' => admissible rest w'
        | .error _ => true

/-- What happens to the session while a served task is in flight: nothing, or a close
call between the `enterStateOrCrash` statement and the Engine statement, or a close call
between the Engine statement and `enterIdling`. -/
inductive Flight where
  | undisturbed
  | closedBeforeEngine
  | closedAfterEngine
  deriving DecidableEq, Repr

/-- The value of `currentState` expected once a served task has finished. -/
def Flight.endState : Flight → SessionState
  | .undisturbed => .IDLING
  | .closedBeforeEngine => .CLOSED
  | .closedAfterEngine => .CLOSED

/-- One request served in strict alternation: the call, then the four worker steps that
dequeue its task and execute its three statements, with the close call of the flight, if
any, in its place. -/
def serve (c : Call) (flight : Flight) : List Action :=
  match flight with
  | .undisturbed => [.call c, .worker, .worker, .worker, .worker]
  | .closedBeforeEngine => [.call c, .worker, .worker, .call .close, .worker, .worker]
  | .closedAfterEngine => [.call c, .worker, .worker, .worker, .call .close, .worker]

/-- A sequence of requests, each served before the next one is made. -/
def serveAll : List (Call × Flight) → List Action
  | [] => []
  | (c, flight) :: rest => serve c flight ++ serveAll rest

/-- The values of `currentState` expected from `serveAll`: for each request its kind,
then IDLING, or CLOSED when the session was closed mid-flight. -/
def servedHistory : List (Call × Flight) → List SessionState
  | [] => []
  | (c, flight) :: rest => c.kindState.getD .IDLING :: flight.endState :: servedHistory rest

/-! ## The constructor, and the calls that take a context -/

/-- A pointer argument of the constructor: `none` is the null pointer. -/
abbrev Ptr := Option Nat

/-- The constructor `Session::Session`: the member initializers, then the five `CHECK`s
in the order of the source; `none` is a failed `CHECK`. The state machine fields of the
constructed object are returned. -/
def Session.new (sensorId userId : Int) (cb engine worker : Ptr) : Option Session :=
  let s : Session :=
    { mSensorId := sensorId, mUserId := userId, mScheduledState := .IDLING,
      mCurrentState := .IDLING }
  if ¬ (s.mSensorId ≥ 0) then none
  else if ¬ (s.mUserId ≥ 0) then none
  else if engine.isNone then none
  else if worker.isNone then none
  else if cb.isNone then none
  else some s

/-- An operation context. `Session.cpp` ignores the argument, so it is kept as its
serialized bytes. -/
structure OperationContext where
  bytes : List Nat
  deriving DecidableEq, Repr

/-- A pointer context (declared in the AIDL interface, not among the sources): the
fields `Session.cpp` reads, and the remaining ones as serialized bytes. The coordinates
are kept in the representation of the interface. -/
structure PointerContext where
  pointerId : Int
  x : F32
  y : F32
  minor : F32
  major : F32
  rest : List Nat
  deriving DecidableEq, Repr

/-- The method `Session::authenticateWithContext`. -/
def authenticateWithContext (operationId : Int) (_context : OperationContext) (w : World) :
    Reply :=
  authenticate operationId w

/-- The method `Session::enrollWithContext`. -/
def enrollWithContext (hat : HardwareAuthToken) (_context : OperationContext) (w : World) :
    Reply :=
  enroll hat w

/-- The method `Session::detectInteractionWithContext`. -/
def detectInteractionWithContext (_context : OperationContext) (w : World) : Reply :=
  detectInteraction w

/-- The method `Session::onPointerDownWithContext`. The parameter `toInt32` is the implicit
C++ conversion of a coordinate of the context to the `int32_t` parameter of
`onPointerDown`. -/
def onPointerDownWithContext (toInt32 : F32 → Int) (context : PointerContext) (w : World) :
    Reply :=
  onPointerDown context.pointerId (toInt32 context.x) (toInt32 context.y) context.minor
    context.major w

/-- The method `Session::onPointerUpWithContext`. -/
def onPointerUpWithContext (context : PointerContext) (w : World) : Reply :=
  onPointerUp context.pointerId w

/-- The method `Session::onContextChanged`. -/
def onContextChanged (_context : OperationContext) (w : World) : Reply :=
  { status := .ok, out := none, world := w }

/-- The method `Session::onPointerCancelWithContext`. -/
def onPointerCancelWithContext (_context : PointerContext) (w : World) : Reply :=
  { status := .ok, out := none, world := w }

/-- The method `Session::setIgnoreDisplayTouches`. -/
def setIgnoreDisplayTouches (_shouldIgnore : Bool) (w : World) : Reply :=
  { status := .ok, out := none, world := w }

/-- Every method of the session interface that `Session.cpp` implements: the fourteen
calls of `Call`, and the calls that take a context or only acknowledge. -/
inductive Request where
  | base (c : Call)
  | authenticateWithContext (operationId : Int) (context : OperationContext)
  | enrollWithContext (hat : HardwareAuthToken) (context : OperationContext)
  | detectInteractionWithContext (context : OperationContext)
  | onPointerDownWithContext (context : PointerContext)
  | onPointerUpWithContext (context : PointerContext)
  | onContextChanged (context : OperationContext)
  | onPointerCancelWithContext (context : PointerContext)
  | setIgnoreDisplayTouches (shouldIgnore : Bool)
  deriving DecidableEq, Repr

/-- Dispatch of a request to the method of the same name. -/
def Request.dispatch (toInt32 : F32 → Int) : Request → World → Reply
  | .base c => c.dispatch
  | .authenticateWithContext operationId context =>
      Fingerprint.authenticateWithContext operationId context
  | .enrollWithContext hat context => Fingerprint.enrollWithContext hat context
  | .detectInteractionWithContext context => Fingerprint.detectInteractionWithContext context
  | .onPointerDownWithContext context => Fingerprint.onPointerDownWithContext toInt32 context
  | .onPointerUpWithContext context => Fingerprint.onPointerUpWithContext context
  | .onContextChanged context => Fingerprint.onContextChanged context
  | .onPointerCancelWithContext context => Fingerprint.onPointerCancelWithContext context
  | .setIgnoreDisplayTouches shouldIgnore => Fingerprint.setIgnoreDisplayTouches shouldIgnore

/-- The pointer and UI signals. -/
def Call.isPointerEvent : Call → Bool
  | .onPointerDown _ _ _ _ _ => true
  | .onPointerUp _ => true
  | .onUiReady => true
  | _ => false

/-- The state that a statement passes to `enterStateOrCrash`, if it is that call. -/
def Stmt.enterState : Stmt → Option SessionState
  | .enterStateOrCrash state => some state
  | _ => none

/-- The states of the `enterStateOrCrash` statements that the worker has still to
execute: those of the task in progress, then those of the pending tasks. -/
def World.pendingEnters (w : World) : List SessionState :=
  w.running.filterMap Stmt.enterState ++ w.queue.filterMap Callable.enterState

/-- The discipline of strict alternation, as seen at an operation request: no task of an
earlier operation request is still waiting to start. A task that was run to completion
is neither pending nor in progress, so a request made after the tasks of all earlier
requests were run to completion is in turn. The pointer and UI signals, close and every
other transition are always in turn. -/
def Action.inTurn (a : Action) (w : World) : Bool :=
  match a with
  | .call c => c.kindState.isNone || w.pendingEnters.isEmpty
  | _ => true

/-- Every transition of the sequence, up to the first abort, is in turn in the world in
which it is taken. -/
def alternating : List Action → World → Bool
  | [], _ => true
  | a :: rest, w =>
      a.inTurn w &&
        match step a w with
        | .ok w' => alternating rest w'
        | .error _ => true

/-- The two requests that report a finger on the sensor. -/
def Request.isPointerDown : Request → Bool
  | .base (.onPointerDown _ _ _ _ _) => true
  | .onPointerDownWithContext _ => true
  | _ => false

end Fingerprint

namespace Fingerprint

/-! ## Basic facts about the transitions -/

/-- After `enterIdling`, `currentState` is CLOSED if it was CLOSED and IDLING otherwise. -/
theorem enterIdling_currentState (s : Session) :
    s.enterIdling.mCurrentState =
      if s.mCurrentState = .CLOSED then .CLOSED else .IDLING := by
  unfold Session.enterIdling
  by_cases h : s.mCurrentState = .CLOSED <;> simp [h]

/-- The transition `enterIdling` does not touch `scheduledState`. -/
theorem enterIdling_scheduledState (s : Session) :
    s.enterIdling.mScheduledState = s.mScheduledState := by
  unfold Session.enterIdling
  by_cases h : s.mCurrentState = .CLOSED <;> simp [h]

/-- The conditional of a cancelable task always succeeds and makes exactly one call. -/
theorem exec_cancelOrEngine (w : World) (cancFuture : Nat) (c : EngineCall) :
    (Stmt.cancelOrEngine cancFuture c).exec w
      = .ok (w.emit (cancelableAction w cancFuture c)) := by
  by_cases h : w.shouldCancel cancFuture = true <;> simp [Stmt.exec, cancelableAction, h]

/-- An Engine statement always succeeds and makes that call. -/
theorem exec_engine (w : World) (c : EngineCall) :
    (Stmt.engine c).exec w = .ok (w.emit (.engine c)) := rfl

/-- The statement `enterIdling()` always succeeds. -/
theorem exec_enterIdling (w : World) : Stmt.enterIdling.exec w = .ok w.enterIdling := rfl

/-- The statement `enterStateOrCrash(state)` is the transition of the same name. -/
theorem exec_enterStateOrCrash (w : World) (state : SessionState) :
    (Stmt.enterStateOrCrash state).exec w = w.enterStateOrCrash state := rfl

/-! ## Cancellation before the task runs -/

/-- C1: for each cancelable call (enroll, authenticate, detectInteraction), made in any
world and in particular on an idle session, the call returns a cancel handle and
enqueues one task; if the handle is fired before that task runs, running the task adds
exactly one call to the trace, `onError(CANCELED, 0)` on the callback sink (so no Engine
call), and leaves `currentState = IDLING` and `scheduledState = IDLING`. The same holds
when the worker, idle at the time of the call, dequeues and runs the task after the
handle was fired. -/
theorem cancel_before_run_reports_canceled (c : Call) (w : World)
    (hc : c.isCancelable = true) :
    ∃ handle task,
      (c.dispatch w).out = some handle ∧
      (c.dispatch w).world.queue = w.queue ++ [task] ∧
      (∃ w', task.run ((c.dispatch w).world.cancel handle) = .ok w' ∧
        w'.trace = w.trace ++ [.callback (.onError .CANCELED 0)] ∧
        w'.session.mCurrentState = .IDLING ∧
        w'.session.mScheduledState = .IDLING) ∧
      (w.running = [] → w.queue = [] →
        ∃ w', run [.call c, .cancel handle, .worker, .worker, .worker, .worker] w = .ok w' ∧
          w'.trace = w.trace ++ [.callback (.onError .CANCELED 0)] ∧
          w'.session.mCurrentState = .IDLING ∧
          w'.session.mScheduledState = .IDLING ∧
          w'.running = [] ∧ w'.queue = []) := by
  cases c <;> simp [Call.isCancelable] at hc
  all_goals
    refine ⟨w.promises.length, ?_⟩
    simp [Call.dispatch, enroll, authenticate, detectInteraction, World.schedule,
      World.scheduleStateOrCrash, Session.scheduleStateOrCrash, World.cancel, Callable.run,
      Callable.stmts, execAll, Stmt.exec, World.enterStateOrCrash, Session.enterStateOrCrash,
      World.shouldCancel, World.emit, World.enterIdling, Session.enterIdling]
    intro hr hq
    simp [run, step, workerStep, Call.dispatch, enroll, authenticate, detectInteraction,
      World.schedule, World.scheduleStateOrCrash, Session.scheduleStateOrCrash, World.cancel,
      Callable.stmts, Stmt.exec, World.enterStateOrCrash, Session.enterStateOrCrash,
      World.shouldCancel, World.emit, World.enterIdling, Session.enterIdling, hr, hq]

/-- Witness for C1: authenticate on a freshly constructed session, canceled before the
task runs. -/
theorem cancel_before_run_reports_canceled_witness :
    (Call.authenticate 7).isCancelable = true ∧
    ∃ handle task,
      ((Call.authenticate 7).dispatch (World.fresh 0 0)).out = some handle ∧
      ((Call.authenticate 7).dispatch (World.fresh 0 0)).world.queue
        = (World.fresh 0 0).queue ++ [task] ∧
      (∃ w', task.run (((Call.authenticate 7).dispatch (World.fresh 0 0)).world.cancel handle)
          = .ok w' ∧
        w'.trace = (World.fresh 0 0).trace ++ [.callback (.onError .CANCELED 0)] ∧
        w'.session.mCurrentState = .IDLING ∧
        w'.session.mScheduledState = .IDLING) ∧
      (∃ w', run [.call (.authenticate 7), .cancel handle, .worker, .worker, .worker,
          .worker] (World.fresh 0 0) = .ok w' ∧
        w'.trace = (World.fresh 0 0).trace ++ [.callback (.onError .CANCELED 0)] ∧
        w'.session.mCurrentState = .IDLING ∧
        w'.session.mScheduledState = .IDLING ∧
        w'.running = [] ∧ w'.queue = []) :=
  ⟨rfl,
    let ⟨handle, task, hout, hqueue, htask, hworker⟩ :=
      cancel_before_run_reports_canceled (Call.authenticate 7) (World.fresh 0 0) rfl
    ⟨handle, task, hout, hqueue, htask, hworker rfl rfl⟩⟩

/-! ## The execute step of the cancelable tasks -/

/-- C2: each cancelable task (enroll, authenticate, detectInteraction), run on a session
on which its kind is scheduled and for either state of its cancellation promise, adds
exactly one call to the trace: `onError(CANCELED, 0)` when the promise is set, and
otherwise the Engine call of its kind carrying the same cancellation future. For an
enroll task whose promise is not set, on an idle worker and with `currentState = IDLING`,
the worker steps that run it take `currentState` to ENROLLING and then to IDLING. -/
theorem cancelable_task_exactly_one_action (w : World) (cancFuture : Nat) :
    (∀ hat, w.session.mScheduledState = .ENROLLING →
      ∃ w', (Callable.enroll hat cancFuture).run w = .ok w' ∧
        w'.trace = w.trace ++ [cancelableAction w cancFuture (.enrollImpl hat cancFuture)]) ∧
    (∀ operationId, w.session.mScheduledState = .AUTHENTICATING →
      ∃ w', (Callable.authenticate operationId cancFuture).run w = .ok w' ∧
        w'.trace = w.trace ++
          [cancelableAction w cancFuture (.authenticateImpl operationId cancFuture)]) ∧
    (w.session.mScheduledState = .DETECTING_INTERACTION →
      ∃ w', (Callable.detectInteraction cancFuture).run w = .ok w' ∧
        w'.trace = w.trace ++
          [cancelableAction w cancFuture (.detectInteractionImpl cancFuture)]) ∧
    (∀ hat pending, w.session.mScheduledState = .ENROLLING →
      w.session.mCurrentState = .IDLING → w.shouldCancel cancFuture = false →
      w.running = [] → w.queue = Callable.enroll hat cancFuture :: pending →
      history [.worker, .worker, .worker, .worker] w = [.ENROLLING, .IDLING] ∧
      ∃ w', run [.worker, .worker, .worker, .worker] w = .ok w' ∧
        w'.trace = w.trace ++ [.engine (.enrollImpl hat cancFuture)]) := by
  refine ⟨?_, ?_, ?_, ?_⟩
  · intro hat hs
    by_cases hf : w.shouldCancel cancFuture = true <;>
      simp [Callable.run, Callable.stmts, execAll, Stmt.exec, World.enterStateOrCrash,
        Session.enterStateOrCrash, World.emit, World.enterIdling, cancelableAction, hs, hf,
        World.shouldCancel] <;> simp [World.shouldCancel] at hf <;> simp [hf]
  · intro operationId hs
    by_cases hf : w.shouldCancel cancFuture = true <;>
      simp [Callable.run, Callable.stmts, execAll, Stmt.exec, World.enterStateOrCrash,
        Session.enterStateOrCrash, World.emit, World.enterIdling, cancelableAction, hs, hf,
        World.shouldCancel] <;> simp [World.shouldCancel] at hf <;> simp [hf]
  · intro hs
    by_cases hf : w.shouldCancel cancFuture = true <;>
      simp [Callable.run, Callable.stmts, execAll, Stmt.exec, World.enterStateOrCrash,
        Session.enterStateOrCrash, World.emit, World.enterIdling, cancelableAction, hs, hf,
        World.shouldCancel] <;> simp [World.shouldCancel] at hf <;> simp [hf]
  · intro hat pending hs hcur hf hr hq
    simp [World.shouldCancel] at hf
    simp [history, run, step, workerStep, hr, hq, Callable.stmts, Stmt.exec,
      World.enterStateOrCrash, Session.enterStateOrCrash, World.emit, World.enterIdling,
      Session.enterIdling, World.shouldCancel, hs, hcur, hf]

/-- Witness for C2: the world right after enroll was requested on a fresh session (for
the enroll task), and the same for authenticate and detectInteraction. -/
theorem cancelable_task_exactly_one_action_witness :
    (∃ w', (Callable.enroll ⟨[]⟩ 0).run (enroll ⟨[]⟩ (World.fresh 0 0)).world = .ok w' ∧
      w'.trace = (enroll ⟨[]⟩ (World.fresh 0 0)).world.trace ++
        [cancelableAction (enroll ⟨[]⟩ (World.fresh 0 0)).world 0 (.enrollImpl ⟨[]⟩ 0)]) ∧
    (∃ w', (Callable.authenticate 7 0).run (authenticate 7 (World.fresh 0 0)).world = .ok w' ∧
      w'.trace = (authenticate 7 (World.fresh 0 0)).world.trace ++
        [cancelableAction (authenticate 7 (World.fresh 0 0)).world 0
          (.authenticateImpl 7 0)]) ∧
    (∃ w', (Callable.detectInteraction 0).run (detectInteraction (World.fresh 0 0)).world
        = .ok w' ∧
      w'.trace = (detectInteraction (World.fresh 0 0)).world.trace ++
        [cancelableAction (detectInteraction (World.fresh 0 0)).world 0
          (.detectInteractionImpl 0)]) ∧
    (history [.worker, .worker, .worker, .worker] (enroll ⟨[]⟩ (World.fresh 0 0)).world
        = [.ENROLLING, .IDLING] ∧
      ∃ w', run [.worker, .worker, .worker, .worker] (enroll ⟨[]⟩ (World.fresh 0 0)).world
          = .ok w' ∧
        w'.trace = (enroll ⟨[]⟩ (World.fresh 0 0)).world.trace ++
          [.engine (.enrollImpl ⟨[]⟩ 0)]) :=
  ⟨(cancelable_task_exactly_one_action (enroll ⟨[]⟩ (World.fresh 0 0)).world 0).1 ⟨[]⟩ rfl,
    (cancelable_task_exactly_one_action (authenticate 7 (World.fresh 0 0)).world 0).2.1 7 rfl,
    (cancelable_task_exactly_one_action (detectInteraction (World.fresh 0 0)).world 0).2.2.1
      rfl,
    (cancelable_task_exactly_one_action (enroll ⟨[]⟩ (World.fresh 0 0)).world 0).2.2.2
      ⟨[]⟩ [] rfl rfl rfl rfl rfl⟩

/-! ## After close -/

/-- C3, counterexample: on a closed session generateChallenge is still accepted; its task
takes `currentState` from CLOSED to GENERATING_CHALLENGE, calls the Engine and leaves the
session in IDLING. -/
theorem closed_not_terminal :
    (close (World.fresh 0 0)).world.session.mCurrentState = .CLOSED ∧
    history [.call .generateChallenge, .worker, .worker, .worker, .worker]
        (close (World.fresh 0 0)).world = [.GENERATING_CHALLENGE, .IDLING] ∧
    run [.call .generateChallenge, .worker, .worker, .worker, .worker]
        (close (World.fresh 0 0)).world =
      .ok { session := { mSensorId := 0, mUserId := 0, mScheduledState := .IDLING,
                         mCurrentState := .IDLING },
            queue := [], running := [], promises := [],
            trace := [.callback .onSessionClosed, .deathRecipientDelete,
                      .engine .generateChallengeImpl] } := by
  exact ⟨rfl, by decide, rfl⟩

/-- C3, amended: in every world with `currentState` CLOSED,
(1) every transition other than the worker executing an `enterStateOrCrash` statement
succeeds and leaves `currentState` CLOSED (binder calls, cancel, client death, dequeuing,
Engine calls, `enterIdling`);
(2) a request of an operation kind is not rejected: it returns ok, does not abort, sets
`scheduledState` to its kind and enqueues its task, with `currentState` still CLOSED;
(3) the worker executing the `enterStateOrCrash` statement of a task whose kind is
scheduled takes `currentState` from CLOSED to that kind and `scheduledState` to IDLING;
(4) a task of an operation kind whose kind is scheduled, run from its first statement to
its last without interruption, does not abort, ends with `currentState` IDLING and adds
exactly one call to the trace: `onError(CANCELED, 0)` when the task is cancelable and its
promise is set, and a call on the Engine otherwise. -/
theorem closed_stays_closed_except_enter (w : World)
    (hclosed : w.session.mCurrentState = .CLOSED) :
    (∀ a : Action,
      (∀ state rest, a = .worker → w.running ≠ .enterStateOrCrash state :: rest) →
      ∃ w', step a w = .ok w' ∧ w'.session.mCurrentState = .CLOSED) ∧
    (∀ (c : Call) (state : SessionState), c.kindState = some state →
      (c.dispatch w).status = .ok ∧
      ∃ w' task, step (.call c) w = .ok w' ∧
        w'.session.mCurrentState = .CLOSED ∧
        w'.session.mScheduledState = state ∧
        w'.queue = w.queue ++ [task] ∧ task.enterState = some state) ∧
    (∀ state rest, w.running = .enterStateOrCrash state :: rest →
      w.session.mScheduledState = state →
      ∃ w', step .worker w = .ok w' ∧ w'.session.mCurrentState = state ∧
        w'.session.mScheduledState = .IDLING) ∧
    (∀ (task : Callable) (state : SessionState), task.enterState = some state →
      w.session.mScheduledState = state →
      ∃ w' e, task.run w = .ok w' ∧ w'.session.mCurrentState = .IDLING ∧
        w'.trace = w.trace ++ [e] ∧
        ((e = .callback (.onError .CANCELED 0) ∧
            ∃ cancFuture c, Stmt.cancelOrEngine cancFuture c ∈ task.stmts ∧
              w.shouldCancel cancFuture = true) ∨
          (e.isEngine = true ∧
            ∀ cancFuture c, Stmt.cancelOrEngine cancFuture c ∈ task.stmts →
              w.shouldCancel cancFuture = false))) := by
  refine ⟨?_, ?_, ?_, ?_⟩
  · intro a hne
    cases a with
    | call c =>
        cases c <;>
          simp [step, Call.dispatch, generateChallenge, revokeChallenge, enroll, authenticate,
            detectInteraction, enumerateEnrollments, removeEnrollments, getAuthenticatorId,
            invalidateAuthenticatorId, resetLockout, close, onPointerDown, onPointerUp,
            onUiReady, World.schedule, World.scheduleStateOrCrash,
            Session.scheduleStateOrCrash, World.emit, hclosed]
    | cancel handle => simp [step, World.cancel, hclosed]
    | clientDeath =>
        simp [step, onClientDeath, Session.isClosed, hclosed]
    | worker =>
        have hne' := fun state rest => hne state rest rfl
        simp only [step, workerStep]
        cases hr : w.running with
        | nil =>
            cases hq : w.queue with
            | nil => simp [hclosed]
            | cons task pending => simp [hclosed]
        | cons s rest =>
            cases s with
            | enterStateOrCrash state => exact absurd hr (hne' state rest)
            | engine c => simp [Stmt.exec, World.emit, hclosed]
            | cancelOrEngine cancFuture c =>
                by_cases hf : w.shouldCancel cancFuture = true <;>
                  simp [Stmt.exec, World.emit, hclosed, hf]
            | enterIdling =>
                simp [Stmt.exec, World.enterIdling, Session.enterIdling, hclosed]
  · intro c state hkind
    cases c <;> simp [Call.kindState] at hkind <;> subst hkind <;>
      simp [step, Call.dispatch, generateChallenge, revokeChallenge, enroll, authenticate,
        detectInteraction, enumerateEnrollments, removeEnrollments, getAuthenticatorId,
        invalidateAuthenticatorId, resetLockout, World.schedule, World.scheduleStateOrCrash,
        Session.scheduleStateOrCrash, Callable.enterState, Callable.stmts, hclosed]
  · intro state rest hr hs
    simp [step, workerStep, hr, Stmt.exec, World.enterStateOrCrash,
      Session.enterStateOrCrash, hs]
  · intro task state htask hs
    cases task <;> simp [Callable.enterState, Callable.stmts] at htask <;> subst htask
    case enroll hat cancFuture =>
      by_cases hf : w.shouldCancel cancFuture = true <;>
        simp [Callable.run, Callable.stmts, execAll, Stmt.exec, World.enterStateOrCrash,
          Session.enterStateOrCrash, World.emit, World.enterIdling, Session.enterIdling,
          Event.isEngine, hs, hf] <;>
        simp [World.shouldCancel] at hf ⊢ <;> simp [hf]
    case authenticate operationId cancFuture =>
      by_cases hf : w.shouldCancel cancFuture = true <;>
        simp [Callable.run, Callable.stmts, execAll, Stmt.exec, World.enterStateOrCrash,
          Session.enterStateOrCrash, World.emit, World.enterIdling, Session.enterIdling,
          Event.isEngine, hs, hf] <;>
        simp [World.shouldCancel] at hf ⊢ <;> simp [hf]
    case detectInteraction cancFuture =>
      by_cases hf : w.shouldCancel cancFuture = true <;>
        simp [Callable.run, Callable.stmts, execAll, Stmt.exec, World.enterStateOrCrash,
          Session.enterStateOrCrash, World.emit, World.enterIdling, Session.enterIdling,
          Event.isEngine, hs, hf] <;>
        simp [World.shouldCancel] at hf ⊢ <;> simp [hf]
    all_goals
      simp [Callable.run, Callable.stmts, execAll, Stmt.exec, World.enterStateOrCrash,
        Session.enterStateOrCrash, World.emit, World.enterIdling, Session.enterIdling,
        Event.isEngine, hs]

/-- Witness for C3 (amended): on the closed fresh session a generateChallenge call is
accepted and leaves `currentState` CLOSED; the first statement of its task then moves it
to GENERATING_CHALLENGE, and the task run as a whole calls the Engine and ends in IDLING;
an authenticate task whose promise is set, run on a closed session, reports CANCELED and
ends in IDLING. -/
theorem closed_stays_closed_except_enter_witness :
    (close (World.fresh 0 0)).world.session.mCurrentState = .CLOSED ∧
    (∃ w', step (.call .generateChallenge) (close (World.fresh 0 0)).world = .ok w' ∧
      w'.session.mCurrentState = .CLOSED) ∧
    ((Call.generateChallenge.dispatch (close (World.fresh 0 0)).world).status = .ok ∧
      ∃ w' task, step (.call .generateChallenge) (close (World.fresh 0 0)).world = .ok w' ∧
        w'.session.mCurrentState = .CLOSED ∧
        w'.session.mScheduledState = .GENERATING_CHALLENGE ∧
        w'.queue = (close (World.fresh 0 0)).world.queue ++ [task] ∧
        task.enterState = some .GENERATING_CHALLENGE) ∧
    (∃ w', step .worker
        { session := Session.mk 0 0 .GENERATING_CHALLENGE .CLOSED,
          queue := [], running := Callable.generateChallenge.stmts, promises := [],
          trace := [.callback .onSessionClosed, .deathRecipientDelete] } = .ok w' ∧
      w'.session.mCurrentState = .GENERATING_CHALLENGE ∧
      w'.session.mScheduledState = .IDLING) ∧
    (∃ w' e, Callable.generateChallenge.run
        { session := Session.mk 0 0 .GENERATING_CHALLENGE .CLOSED,
          queue := [], running := [], promises := [],
          trace := [.callback .onSessionClosed, .deathRecipientDelete] } = .ok w' ∧
      w'.session.mCurrentState = .IDLING ∧
      w'.trace = [.callback .onSessionClosed, .deathRecipientDelete] ++ [e] ∧
      ((e = .callback (.onError .CANCELED 0) ∧
          ∃ cancFuture c, Stmt.cancelOrEngine cancFuture c ∈ Callable.generateChallenge.stmts ∧
            World.shouldCancel
              { session := Session.mk 0 0 .GENERATING_CHALLENGE .CLOSED,
                queue := [], running := [], promises := [],
                trace := [.callback .onSessionClosed, .deathRecipientDelete] }
              cancFuture = true) ∨
        (e.isEngine = true ∧
          ∀ cancFuture c, Stmt.cancelOrEngine cancFuture c ∈ Callable.generateChallenge.stmts →
            World.shouldCancel
              { session := Session.mk 0 0 .GENERATING_CHALLENGE .CLOSED,
                queue := [], running := [], promises := [],
                trace := [.callback .onSessionClosed, .deathRecipientDelete] }
              cancFuture = false))) ∧
    (∃ w' e, (Callable.authenticate 1 0).run
        { session := Session.mk 0 0 .AUTHENTICATING .CLOSED,
          queue := [], running := [], promises := [true],
          trace := [.callback .onSessionClosed, .deathRecipientDelete] } = .ok w' ∧
      w'.session.mCurrentState = .IDLING ∧
      w'.trace = [.callback .onSessionClosed, .deathRecipientDelete] ++ [e] ∧
      ((e = .callback (.onError .CANCELED 0) ∧
          ∃ cancFuture c, Stmt.cancelOrEngine cancFuture c ∈ (Callable.authenticate 1 0).stmts ∧
            World.shouldCancel
              { session := Session.mk 0 0 .AUTHENTICATING .CLOSED,
                queue := [], running := [], promises := [true],
                trace := [.callback .onSessionClosed, .deathRecipientDelete] }
              cancFuture = true) ∨
        (e.isEngine = true ∧
          ∀ cancFuture c, Stmt.cancelOrEngine cancFuture c ∈ (Callable.authenticate 1 0).stmts →
            World.shouldCancel
              { session := Session.mk 0 0 .AUTHENTICATING .CLOSED,
                queue := [], running := [], promises := [true],
                trace := [.callback .onSessionClosed, .deathRecipientDelete] }
              cancFuture = false))) :=
  ⟨rfl,
    (closed_stays_closed_except_enter (close (World.fresh 0 0)).world rfl).1
      (.call .generateChallenge) (fun _ _ h => Action.noConfusion h),
    (closed_stays_closed_except_enter (close (World.fresh 0 0)).world rfl).2.1
      .generateChallenge .GENERATING_CHALLENGE rfl,
    (closed_stays_closed_except_enter
      { session := Session.mk 0 0 .GENERATING_CHALLENGE .CLOSED,
        queue := [], running := Callable.generateChallenge.stmts, promises := [],
        trace := [.callback .onSessionClosed, .deathRecipientDelete] } rfl).2.2.1
      .GENERATING_CHALLENGE [.engine .generateChallengeImpl, .enterIdling] rfl rfl,
    (closed_stays_closed_except_enter
      { session := Session.mk 0 0 .GENERATING_CHALLENGE .CLOSED,
        queue := [], running := [], promises := [],
        trace := [.callback .onSessionClosed, .deathRecipientDelete] } rfl).2.2.2
      .generateChallenge .GENERATING_CHALLENGE rfl rfl,
    (closed_stays_closed_except_enter
      { session := Session.mk 0 0 .AUTHENTICATING .CLOSED,
        queue := [], running := [], promises := [true],
        trace := [.callback .onSessionClosed, .deathRecipientDelete] } rfl).2.2.2
      (.authenticate 1 0) .AUTHENTICATING rfl rfl⟩

/-! ## Single flight -/

/-- A binder call never aborts. -/
theorem step_call (c : Call) (w : World) : step (.call c) w = .ok (c.dispatch w).world := rfl

/-- An allowed transition taken from a world without two operations in flight ends,
whether it succeeds or aborts, in a world without two operations in flight. -/
theorem twoInFlight_step (a : Action) (w w' : World) (hallowed : a.allowed w = true)
    (hinv : w.twoInFlight = false) (hstep : step a w = .ok w' ∨ step a w = .error w') :
    w'.twoInFlight = false := by
  cases a with
  | call c =>
      rw [step_call] at hstep
      simp at hstep
      subst hstep
      cases c <;>
        simp_all [Action.allowed, Call.kindState, World.twoInFlight, Call.dispatch,
          generateChallenge, revokeChallenge, enroll, authenticate, detectInteraction,
          enumerateEnrollments, removeEnrollments, getAuthenticatorId,
          invalidateAuthenticatorId, resetLockout, close, onPointerDown, onPointerUp,
          onUiReady, World.schedule, World.scheduleStateOrCrash, Session.scheduleStateOrCrash,
          World.emit, SessionState.isOperation] <;> tauto
  | cancel handle =>
      simp [step] at hstep
      subst hstep
      simpa [World.twoInFlight, World.cancel] using hinv
  | clientDeath =>
      simp [step] at hstep
      subst hstep
      by_cases hc : w.session.isClosed = true
      · simpa [onClientDeath, hc] using hinv
      · simp [onClientDeath, hc, close, World.emit, World.twoInFlight,
          SessionState.isOperation]
  | worker =>
      simp only [step, workerStep] at hstep
      cases hr : w.running with
      | nil =>
          rw [hr] at hstep
          cases hq : w.queue with
          | nil =>
              rw [hq] at hstep
              simp at hstep
              subst hstep
              exact hinv
          | cons task pending =>
              rw [hq] at hstep
              simp at hstep
              subst hstep
              simpa [World.twoInFlight] using hinv
      | cons s rest =>
          rw [hr] at hstep
          cases s with
          | enterStateOrCrash state =>
              by_cases hs : w.session.mScheduledState = state
              · simp [Stmt.exec, World.enterStateOrCrash, Session.enterStateOrCrash, hs]
                  at hstep
                subst hstep
                simp [World.twoInFlight, SessionState.isOperation]
              · simp [Stmt.exec, World.enterStateOrCrash, Session.enterStateOrCrash, hs]
                  at hstep
                subst hstep
                exact hinv
          | engine c =>
              simp [Stmt.exec, World.emit] at hstep
              subst hstep
              simpa [World.twoInFlight] using hinv
          | cancelOrEngine cancFuture c =>
              by_cases hf : w.shouldCancel cancFuture = true <;>
                simp [Stmt.exec, World.emit, hf] at hstep <;> subst hstep <;>
                simpa [World.twoInFlight] using hinv
          | enterIdling =>
              simp [Stmt.exec, World.enterIdling] at hstep
              subst hstep
              by_cases hc : w.session.mCurrentState = .CLOSED
              · simpa [World.twoInFlight, Session.enterIdling, hc] using hinv
              · simp [World.twoInFlight, Session.enterIdling, hc, SessionState.isOperation]

/-- The invariant of `twoInFlight_step` along an admissible run. -/
theorem twoInFlight_run (as : List Action) (w w' : World)
    (hadm : admissible as w = true) (hinv : w.twoInFlight = false)
    (hrun : run as w = .ok w' ∨ run as w = .error w') : w'.twoInFlight = false := by
  induction as generalizing w with
  | nil =>
      simp [run] at hrun
      subst hrun
      exact hinv
  | cons a rest ih =>
      simp only [admissible, Bool.and_eq_true] at hadm
      simp only [run] at hrun
      cases hs : step a w with
      | ok w1 =>
          rw [hs] at hrun hadm
          exact ih w1 hadm.2 (twoInFlight_step a w w1 hadm.1 hinv (Or.inl hs)) hrun
      | error e =>
          rw [hs] at hrun
          simp at hrun
          subst hrun
          exact twoInFlight_step a w e hadm.1 hinv (Or.inr hs)

/-- C4, counterexample: enroll is requested and its task has entered ENROLLING; an
authenticate request made now is accepted, and the session holds
`scheduledState = AUTHENTICATING` together with `currentState = ENROLLING`. -/
theorem single_flight_violated :
    run [.call (.enroll ⟨[]⟩), .worker, .worker, .call (.authenticate 1)] (World.fresh 0 0) =
      .ok { session := { mSensorId := 0, mUserId := 0, mScheduledState := .AUTHENTICATING,
                         mCurrentState := .ENROLLING },
            queue := [.authenticate 1 1],
            running := [.cancelOrEngine 0 (.enrollImpl ⟨[]⟩ 0), .enterIdling],
            promises := [false, false], trace := [] } ∧
    SessionState.AUTHENTICATING.isOperation = true ∧
    SessionState.ENROLLING.isOperation = true :=
  ⟨rfl, rfl, rfl⟩

/-- C4, amended: in every world reached from a freshly constructed session by a sequence
of binder calls, cancellations, client-death notifications and worker steps in which each
operation request is made while `currentState` is not an operation state, including the
world in which a task aborts, `scheduledState` and `currentState` are not both operation
states. -/
theorem single_flight_when_requests_wait (sensorId userId : Int) (as : List Action)
    (w' : World) (hadm : admissible as (World.fresh sensorId userId) = true)
    (hrun : run as (World.fresh sensorId userId) = .ok w' ∨
      run as (World.fresh sensorId userId) = .error w') :
    ¬ (w'.session.mScheduledState.isOperation = true ∧
        w'.session.mCurrentState.isOperation = true) := by
  have h := twoInFlight_run as (World.fresh sensorId userId) w' hadm rfl hrun
  simpa [World.twoInFlight] using h

/-- Witness for C4 (amended): enroll is served to completion, then authenticate is
requested and its task enters. -/
theorem single_flight_when_requests_wait_witness :
    admissible [.call (.enroll ⟨[]⟩), .worker, .worker, .worker, .worker,
        .call (.authenticate 1), .worker, .worker] (World.fresh 0 0) = true ∧
    run [.call (.enroll ⟨[]⟩), .worker, .worker, .worker, .worker,
        .call (.authenticate 1), .worker, .worker] (World.fresh 0 0) =
      .ok { session := Session.mk 0 0 .IDLING .AUTHENTICATING, queue := [],
            running := [.cancelOrEngine 1 (.authenticateImpl 1 1), .enterIdling],
            promises := [false, false], trace := [.engine (.enrollImpl ⟨[]⟩ 0)] } ∧
    ¬ (SessionState.IDLING.isOperation = true ∧
        SessionState.AUTHENTICATING.isOperation = true) :=
  ⟨by decide, rfl,
    single_flight_when_requests_wait 0 0
      [.call (.enroll ⟨[]⟩), .worker, .worker, .worker, .worker,
        .call (.authenticate 1), .worker, .worker]
      { session := Session.mk 0 0 .IDLING .AUTHENTICATING, queue := [],
        running := [.cancelOrEngine 1 (.authenticateImpl 1 1), .enterIdling],
        promises := [false, false], trace := [.engine (.enrollImpl ⟨[]⟩ 0)] }
      (by decide) (Or.inl rfl)⟩

/-! ## Requests served one after the other -/

/-- A run of two sequences is the run of the second from where the first ended. -/
theorem run_append (as bs : List Action) (w w1 : World) (h : run as w = .ok w1) :
    run (as ++ bs) w = run bs w1 := by
  induction as generalizing w with
  | nil =>
      simp [run] at h
      subst h
      rfl
  | cons a rest ih =>
      simp only [run, List.cons_append] at h ⊢
      cases hs : step a w with
      | ok w2 =>
          rw [hs] at h
          exact ih w2 h
      | error e =>
          rw [hs] at h
          cases h

/-- The history of two sequences is the history of the first followed by the history of
the second from where the first ended. -/
theorem history_append (as bs : List Action) (w w1 : World) (h : run as w = .ok w1) :
    history (as ++ bs) w = history as w ++ history bs w1 := by
  induction as generalizing w with
  | nil =>
      simp [run] at h
      subst h
      rfl
  | cons a rest ih =>
      rw [List.cons_append]
      simp only [run] at h
      simp only [history]
      cases hs : step a w with
      | ok w2 =>
          rw [hs] at h
          simp only []
          rw [ih w2 h]
          split <;> simp
      | error e =>
          rw [hs] at h
          cases h

/-- One operation request served on an idle worker: the run does not abort,
`currentState` takes the value of the kind and then IDLING (CLOSED when the session is
closed mid-flight), and the worker is idle again. -/
theorem serve_one (c : Call) (flight : Flight) (state : SessionState) (w : World)
    (hkind : c.kindState = some state) (hr : w.running = []) (hq : w.queue = [])
    (hcur : w.session.mCurrentState.isOperation = false) :
    ∃ w', run (serve c flight) w = .ok w' ∧
      history (serve c flight) w = [state, flight.endState] ∧
      w'.running = [] ∧ w'.queue = [] ∧ w'.session.mCurrentState.isOperation = false := by
  have hcur' : w.session.mCurrentState = .IDLING ∨ w.session.mCurrentState = .CLOSED := by
    simp [SessionState.isOperation] at hcur
    tauto
  cases c <;> simp [Call.kindState] at hkind <;> subst hkind <;>
    cases flight <;> rcases hcur' with hc | hc <;>
    simp [serve, Flight.endState, run, history, step, workerStep, Call.dispatch,
      generateChallenge, revokeChallenge, enroll, authenticate, detectInteraction,
      enumerateEnrollments, removeEnrollments, getAuthenticatorId, invalidateAuthenticatorId,
      resetLockout, close, World.schedule, World.scheduleStateOrCrash,
      Session.scheduleStateOrCrash, World.emit, Callable.stmts, exec_cancelOrEngine,
      exec_engine, exec_enterIdling, exec_enterStateOrCrash, World.enterStateOrCrash,
      Session.enterStateOrCrash, World.enterIdling, Session.enterIdling,
      SessionState.isOperation, hr, hq, hc]

/-- C5, counterexample: enroll and authenticate are requested one after the other and the
worker then starts on the queue; the first task aborts at its `enterStateOrCrash`
statement, `currentState` never takes the value ENROLLING or AUTHENTICATING, and no
Engine call is made. -/
theorem queued_requests_abort :
    run [.call (.enroll ⟨[]⟩), .call (.authenticate 1), .worker, .worker] (World.fresh 0 0) =
      .error { session := { mSensorId := 0, mUserId := 0,
                            mScheduledState := .AUTHENTICATING, mCurrentState := .IDLING },
               queue := [.authenticate 1 1],
               running := [.enterStateOrCrash .ENROLLING,
                           .cancelOrEngine 0 (.enrollImpl ⟨[]⟩ 0), .enterIdling],
               promises := [false, false], trace := [] } ∧
    history [.call (.enroll ⟨[]⟩), .call (.authenticate 1), .worker, .worker]
      (World.fresh 0 0) = [] :=
  ⟨rfl, by decide⟩

/-- C5, amended: for every finite sequence of operation requests of any kinds, each
served by the worker before the next one is made, on a worker that starts idle and a
session whose `currentState` is IDLING or CLOSED: the run does not abort, and
`currentState` takes, for each request in turn, the value of its kind exactly once,
followed by IDLING, or by CLOSED when the session is closed mid-flight (after the
`enterStateOrCrash` statement of the task and before its `enterIdling`). -/
theorem served_in_turn (items : List (Call × Flight)) (w : World)
    (hops : ∀ item ∈ items, item.1.kindState.isSome = true)
    (hr : w.running = []) (hq : w.queue = [])
    (hcur : w.session.mCurrentState.isOperation = false) :
    ∃ w', run (serveAll items) w = .ok w' ∧
      history (serveAll items) w = servedHistory items ∧
      w'.running = [] ∧ w'.queue = [] := by
  induction items generalizing w with
  | nil => exact ⟨w, rfl, rfl, hr, hq⟩
  | cons item rest ih =>
      obtain ⟨c, flight⟩ := item
      have hsome : c.kindState.isSome = true := hops (c, flight) (by simp)
      obtain ⟨state, hstate⟩ := Option.isSome_iff_exists.mp hsome
      obtain ⟨w1, hrun1, hhist1, hr1, hq1, hcur1⟩ :=
        serve_one c flight state w hstate hr hq hcur
      obtain ⟨w2, hrun2, hhist2, hr2, hq2⟩ :=
        ih w1 (fun item hmem => hops item (List.mem_cons_of_mem _ hmem)) hr1 hq1 hcur1
      refine ⟨w2, ?_, ?_, hr2, hq2⟩
      · simp only [serveAll]
        rw [run_append _ _ w w1 hrun1]
        exact hrun2
      · simp only [serveAll, servedHistory]
        rw [history_append _ _ w w1 hrun1, hhist1, hhist2, hstate]
        simp

/-- Witness for C5 (amended): enroll served with a close after its Engine statement,
authenticate served undisturbed, then generateChallenge served with a close before its
Engine statement, from a freshly constructed session. -/
theorem served_in_turn_witness :
    ∃ w', run (serveAll [(.enroll ⟨[]⟩, .closedAfterEngine), (.authenticate 1, .undisturbed),
          (.generateChallenge, .closedBeforeEngine)]) (World.fresh 0 0) = .ok w' ∧
      history (serveAll [(.enroll ⟨[]⟩, .closedAfterEngine), (.authenticate 1, .undisturbed),
          (.generateChallenge, .closedBeforeEngine)]) (World.fresh 0 0)
        = [.ENROLLING, .CLOSED, .AUTHENTICATING, .IDLING, .GENERATING_CHALLENGE, .CLOSED] ∧
      w'.running = [] ∧ w'.queue = [] :=
  served_in_turn [(.enroll ⟨[]⟩, .closedAfterEngine), (.authenticate 1, .undisturbed),
      (.generateChallenge, .closedBeforeEngine)] (World.fresh 0 0)
    (by decide) rfl rfl rfl

/-! ## The Enter transition -/

/-- C6: `enterStateOrCrash(X)` succeeds exactly when `scheduledState = X`; on success it
sets `currentState = X` and `scheduledState = IDLING` and changes nothing else; on a
mismatch the `CHECK` fails, and a task whose first statement is that call then aborts in
the world in which it started (run as a whole or by a worker step), so without the Engine
call and with the trace unchanged. -/
theorem enter_succeeds_iff_scheduled (s : Session) (state : SessionState) (w : World) :
    ((s.enterStateOrCrash state).isSome = true ↔ s.mScheduledState = state) ∧
    (s.mScheduledState = state →
      s.enterStateOrCrash state =
        some { mSensorId := s.mSensorId, mUserId := s.mUserId, mScheduledState := .IDLING,
               mCurrentState := state }) ∧
    (∀ task : Callable, task.enterState = some state →
      w.session.mScheduledState ≠ state →
      task.run w = .error w ∧
      (w.running = task.stmts → step .worker w = .error w)) := by
  refine ⟨?_, ?_, ?_⟩
  · by_cases h : s.mScheduledState = state <;> simp [Session.enterStateOrCrash, h]
  · intro h
    simp [Session.enterStateOrCrash, h]
  · intro task htask hne
    constructor
    · cases task <;> simp [Callable.enterState, Callable.stmts] at htask <;> subst htask <;>
        simp [Callable.run, Callable.stmts, execAll, Stmt.exec, World.enterStateOrCrash,
          Session.enterStateOrCrash, hne]
    · intro hr
      cases task <;> simp [Callable.enterState, Callable.stmts] at htask <;> subst htask <;>
        simp [step, workerStep, hr, Callable.stmts, Stmt.exec, World.enterStateOrCrash,
          Session.enterStateOrCrash, hne]

/-- Witness for C6: a generateChallenge task started while ENROLLING is the scheduled
state. -/
theorem enter_succeeds_iff_scheduled_witness :
    (((Session.mk 0 0 .ENROLLING .IDLING).enterStateOrCrash .ENROLLING).isSome = true ↔
      (Session.mk 0 0 .ENROLLING .IDLING).mScheduledState = .ENROLLING) ∧
    (Session.mk 0 0 .ENROLLING .IDLING).enterStateOrCrash .ENROLLING =
      some { mSensorId := 0, mUserId := 0, mScheduledState := .IDLING,
             mCurrentState := .ENROLLING } ∧
    Callable.generateChallenge.run
        { session := Session.mk 0 0 .ENROLLING .IDLING, queue := [],
          running := Callable.generateChallenge.stmts, promises := [], trace := [] } =
      .error { session := Session.mk 0 0 .ENROLLING .IDLING, queue := [],
               running := Callable.generateChallenge.stmts, promises := [], trace := [] } ∧
    step .worker
        { session := Session.mk 0 0 .ENROLLING .IDLING, queue := [],
          running := Callable.generateChallenge.stmts, promises := [], trace := [] } =
      .error { session := Session.mk 0 0 .ENROLLING .IDLING, queue := [],
               running := Callable.generateChallenge.stmts, promises := [], trace := [] } :=
  ⟨(enter_succeeds_iff_scheduled (Session.mk 0 0 .ENROLLING .IDLING) .ENROLLING
      (World.fresh 0 0)).1,
    (enter_succeeds_iff_scheduled (Session.mk 0 0 .ENROLLING .IDLING) .ENROLLING
      (World.fresh 0 0)).2.1 rfl,
    ((enter_succeeds_iff_scheduled (Session.mk 0 0 .ENROLLING .IDLING) .GENERATING_CHALLENGE
      { session := Session.mk 0 0 .ENROLLING .IDLING, queue := [],
        running := Callable.generateChallenge.stmts, promises := [], trace := [] }).2.2
      .generateChallenge rfl (by decide)).1,
    ((enter_succeeds_iff_scheduled (Session.mk 0 0 .ENROLLING .IDLING) .GENERATING_CHALLENGE
      { session := Session.mk 0 0 .ENROLLING .IDLING, queue := [],
        running := Callable.generateChallenge.stmts, promises := [], trace := [] }).2.2
      .generateChallenge rfl (by decide)).2 rfl⟩

/-! ## Scheduling -/

/-- C7: for each of the ten operation kinds, the request call returns with
`scheduledState` set to the state of its kind and `currentState` unchanged, and the
worker queue is the old queue followed by exactly one new task, the task of that kind;
the task in progress and the trace are unchanged. -/
theorem request_schedules_kind (c : Call) (state : SessionState) (w : World)
    (hkind : c.kindState = some state) :
    (c.dispatch w).world.session.mScheduledState = state ∧
    (c.dispatch w).world.session.mCurrentState = w.session.mCurrentState ∧
    (∃ task, (c.dispatch w).world.queue = w.queue ++ [task] ∧
      task.enterState = some state) ∧
    (c.dispatch w).world.running = w.running ∧
    (c.dispatch w).world.trace = w.trace := by
  cases c <;> simp [Call.kindState] at hkind <;> subst hkind <;>
    simp [Call.dispatch, generateChallenge, revokeChallenge, enroll, authenticate,
      detectInteraction, enumerateEnrollments, removeEnrollments, getAuthenticatorId,
      invalidateAuthenticatorId, resetLockout, World.schedule, World.scheduleStateOrCrash,
      Session.scheduleStateOrCrash, Callable.enterState, Callable.stmts]

/-- Witness for C7: resetLockout requested on a freshly constructed session. -/
theorem request_schedules_kind_witness :
    (Call.resetLockout ⟨[1, 2]⟩).kindState = some .RESETTING_LOCKOUT ∧
    ((Call.resetLockout ⟨[1, 2]⟩).dispatch (World.fresh 0 0)).world.session.mScheduledState
      = .RESETTING_LOCKOUT ∧
    ((Call.resetLockout ⟨[1, 2]⟩).dispatch (World.fresh 0 0)).world.session.mCurrentState
      = (World.fresh 0 0).session.mCurrentState ∧
    (∃ task, ((Call.resetLockout ⟨[1, 2]⟩).dispatch (World.fresh 0 0)).world.queue
        = (World.fresh 0 0).queue ++ [task] ∧
      task.enterState = some .RESETTING_LOCKOUT) ∧
    ((Call.resetLockout ⟨[1, 2]⟩).dispatch (World.fresh 0 0)).world.running
      = (World.fresh 0 0).running ∧
    ((Call.resetLockout ⟨[1, 2]⟩).dispatch (World.fresh 0 0)).world.trace
      = (World.fresh 0 0).trace :=
  ⟨rfl, request_schedules_kind (Call.resetLockout ⟨[1, 2]⟩) .RESETTING_LOCKOUT
    (World.fresh 0 0) rfl⟩

/-- C8, counterexample: authenticate requested while enroll is scheduled and not yet
started, and authenticate requested while the enroll task is running, are both accepted:
the call does not abort and overwrites `scheduledState`. -/
theorem overlapping_schedule_accepted :
    step (.call (.authenticate 1))
        { session := Session.mk 0 0 .ENROLLING .IDLING, queue := [.enroll ⟨[]⟩ 0],
          running := [], promises := [false], trace := [] } =
      .ok { session := Session.mk 0 0 .AUTHENTICATING .IDLING,
            queue := [.enroll ⟨[]⟩ 0, .authenticate 1 1],
            running := [], promises := [false, false], trace := [] } ∧
    step (.call (.authenticate 1))
        { session := Session.mk 0 0 .IDLING .ENROLLING, queue := [],
          running := [.cancelOrEngine 0 (.enrollImpl ⟨[]⟩ 0), .enterIdling],
          promises := [false], trace := [] } =
      .ok { session := Session.mk 0 0 .AUTHENTICATING .ENROLLING,
            queue := [.authenticate 1 1],
            running := [.cancelOrEngine 0 (.enrollImpl ⟨[]⟩ 0), .enterIdling],
            promises := [false, false], trace := [] } :=
  ⟨rfl, rfl⟩

/-- C8, amended: scheduling an operation never fails. In every session state, also while
another operation is scheduled or running, the request call of an operation kind does not
abort, returns ok, sets `scheduledState` to the state of its kind, whatever was scheduled
before, and leaves `currentState` unchanged. -/
theorem schedule_never_fails (c : Call) (state : SessionState) (w : World)
    (hkind : c.kindState = some state) :
    ∃ w', step (.call c) w = .ok w' ∧ (c.dispatch w).status = .ok ∧
      w'.session.mScheduledState = state ∧
      w'.session.mCurrentState = w.session.mCurrentState := by
  refine ⟨(c.dispatch w).world, rfl, ?_⟩
  cases c <;> simp [Call.kindState] at hkind <;> subst hkind <;>
    simp [Call.dispatch, generateChallenge, revokeChallenge, enroll, authenticate,
      detectInteraction, enumerateEnrollments, removeEnrollments, getAuthenticatorId,
      invalidateAuthenticatorId, resetLockout, World.schedule, World.scheduleStateOrCrash,
      Session.scheduleStateOrCrash]

/-- Witness for C8 (amended): authenticate requested while the enroll task is running. -/
theorem schedule_never_fails_witness :
    (Call.authenticate 1).kindState = some .AUTHENTICATING ∧
    ∃ w', step (.call (.authenticate 1))
        { session := Session.mk 0 0 .IDLING .ENROLLING, queue := [],
          running := [.cancelOrEngine 0 (.enrollImpl ⟨[]⟩ 0), .enterIdling],
          promises := [false], trace := [] } = .ok w' ∧
      ((Call.authenticate 1).dispatch
        { session := Session.mk 0 0 .IDLING .ENROLLING, queue := [],
          running := [.cancelOrEngine 0 (.enrollImpl ⟨[]⟩ 0), .enterIdling],
          promises := [false], trace := [] }).status = .ok ∧
      w'.session.mScheduledState = .AUTHENTICATING ∧
      w'.session.mCurrentState = .ENROLLING :=
  ⟨rfl, schedule_never_fails (.authenticate 1) .AUTHENTICATING
    { session := Session.mk 0 0 .IDLING .ENROLLING, queue := [],
      running := [.cancelOrEngine 0 (.enrollImpl ⟨[]⟩ 0), .enterIdling],
      promises := [false], trace := [] } rfl⟩

/-! ## Returning to idle, and close -/

/-- C9: `enterIdling` sets `currentState` to IDLING, changing nothing else, when
`currentState` is not CLOSED, and changes nothing when it is CLOSED. Consequently, for
the task of every operation kind, started by the worker with its kind scheduled: when
close is called after the `enterStateOrCrash` statement and before `enterIdling`, either
before or after the Engine statement, the task runs to its end and `currentState` is
CLOSED afterwards. -/
theorem enterIdling_respects_close (s : Session) (task : Callable) (state : SessionState)
    (pending : List Callable) (w : World) :
    (s.mCurrentState ≠ .CLOSED →
      s.enterIdling = { mSensorId := s.mSensorId, mUserId := s.mUserId,
                        mScheduledState := s.mScheduledState, mCurrentState := .IDLING }) ∧
    (s.mCurrentState = .CLOSED → s.enterIdling = s) ∧
    (task.enterState = some state → w.session.mScheduledState = state →
      w.running = [] → w.queue = task :: pending →
      (∃ w', run [.worker, .worker, .call .close, .worker, .worker] w = .ok w' ∧
        w'.session.mCurrentState = .CLOSED ∧ w'.running = [] ∧ w'.queue = pending) ∧
      (∃ w', run [.worker, .worker, .worker, .call .close, .worker] w = .ok w' ∧
        w'.session.mCurrentState = .CLOSED ∧ w'.running = [] ∧ w'.queue = pending)) := by
  refine ⟨?_, ?_, ?_⟩
  · intro h
    simp [Session.enterIdling, h]
  · intro h
    simp [Session.enterIdling, h]
  · intro htask hs hr hq
    constructor <;>
      cases task <;> simp [Callable.enterState, Callable.stmts] at htask <;>
      subst htask <;>
      simp [run, step, workerStep, Call.dispatch, close, World.emit, Callable.stmts,
        exec_cancelOrEngine, exec_engine, exec_enterIdling, exec_enterStateOrCrash,
        World.enterStateOrCrash, Session.enterStateOrCrash, World.enterIdling,
        Session.enterIdling, hs, hr, hq]

/-- Witness for C9: `enterIdling` on an enrolling and on a closed session, and a
generateChallenge task, requested on a freshly constructed session, with close called
while it is in flight. -/
theorem enterIdling_respects_close_witness :
    (Session.mk 0 0 .IDLING .ENROLLING).enterIdling = Session.mk 0 0 .IDLING .IDLING ∧
    (Session.mk 0 0 .IDLING .CLOSED).enterIdling = Session.mk 0 0 .IDLING .CLOSED ∧
    (∃ w', run [.worker, .worker, .call .close, .worker, .worker]
        (generateChallenge (World.fresh 0 0)).world = .ok w' ∧
      w'.session.mCurrentState = .CLOSED ∧ w'.running = [] ∧ w'.queue = []) ∧
    (∃ w', run [.worker, .worker, .worker, .call .close, .worker]
        (generateChallenge (World.fresh 0 0)).world = .ok w' ∧
      w'.session.mCurrentState = .CLOSED ∧ w'.running = [] ∧ w'.queue = []) :=
  ⟨(enterIdling_respects_close (Session.mk 0 0 .IDLING .ENROLLING) .generateChallenge
      .GENERATING_CHALLENGE [] (World.fresh 0 0)).1 (by decide),
    (enterIdling_respects_close (Session.mk 0 0 .IDLING .CLOSED) .generateChallenge
      .GENERATING_CHALLENGE [] (World.fresh 0 0)).2.1 rfl,
    (enterIdling_respects_close (Session.mk 0 0 .IDLING .CLOSED) .generateChallenge
      .GENERATING_CHALLENGE [] (generateChallenge (World.fresh 0 0)).world).2.2
      rfl rfl rfl rfl⟩

/-- C10, the code at the failing input: when the client-death handler closes the session
first and an explicit close follows, `close` runs its side effects a second time, so two
session-closed notifications are delivered and the death recipient is deleted twice;
with the explicit close first, the guard of the handler leaves one of each. -/
theorem close_after_client_death_repeats_side_effects :
    run [.clientDeath, .call .close] (World.fresh 0 0) =
      .ok { session := Session.mk 0 0 .IDLING .CLOSED, queue := [], running := [],
            promises := [],
            trace := [.callback .onSessionClosed, .deathRecipientDelete,
                      .callback .onSessionClosed, .deathRecipientDelete] } ∧
    run [.call .close, .clientDeath] (World.fresh 0 0) =
      .ok { session := Session.mk 0 0 .IDLING .CLOSED, queue := [], running := [],
            promises := [],
            trace := [.callback .onSessionClosed, .deathRecipientDelete] } :=
  ⟨rfl, rfl⟩

/-! ## Client death and close -/

/-- C11: the client-death handler does nothing (same world: no state change, no
notification) when the cookie is null or `currentState` is CLOSED; for the session cookie
and any other `currentState` it performs `close` exactly once: one session-closed
notification and one release of the death recipient are added to the trace,
`currentState` becomes CLOSED and nothing else changes. -/
theorem client_death_closes_unless_closed (cookie : Cookie) (w : World) :
    (cookie = .null ∨ w.session.mCurrentState = .CLOSED → onClientDeath cookie w = w) ∧
    (cookie = .session → w.session.mCurrentState ≠ .CLOSED →
      onClientDeath cookie w = (close w).world ∧
      (onClientDeath cookie w).session.mCurrentState = .CLOSED ∧
      (onClientDeath cookie w).trace
        = w.trace ++ [.callback .onSessionClosed, .deathRecipientDelete] ∧
      (onClientDeath cookie w).session.mScheduledState = w.session.mScheduledState ∧
      (onClientDeath cookie w).queue = w.queue ∧
      (onClientDeath cookie w).running = w.running) := by
  constructor
  · intro h
    cases cookie with
    | null => rfl
    | session =>
        rcases h with h | h
        · cases h
        · simp [onClientDeath, Session.isClosed, h]
  · intro hc hne
    subst hc
    simp [onClientDeath, Session.isClosed, hne, close, World.emit]

/-- Witness for C11: the handler on a closed session and on a session that is enrolling. -/
theorem client_death_closes_unless_closed_witness :
    onClientDeath .session (close (World.fresh 0 0)).world = (close (World.fresh 0 0)).world ∧
    onClientDeath .session
        { session := Session.mk 0 0 .IDLING .ENROLLING, queue := [],
          running := [.enterIdling], promises := [false],
          trace := [.engine (.enrollImpl ⟨[]⟩ 0)] } =
      { session := Session.mk 0 0 .IDLING .CLOSED, queue := [],
        running := [.enterIdling], promises := [false],
        trace := [.engine (.enrollImpl ⟨[]⟩ 0), .callback .onSessionClosed,
                  .deathRecipientDelete] } :=
  ⟨(client_death_closes_unless_closed .session (close (World.fresh 0 0)).world).1
      (Or.inr rfl),
    ((client_death_closes_unless_closed .session
        { session := Session.mk 0 0 .IDLING .ENROLLING, queue := [],
          running := [.enterIdling], promises := [false],
          trace := [.engine (.enrollImpl ⟨[]⟩ 0)] }).2 rfl (by decide)).1⟩

/-- C12: `close`, in every world (idle, with an operation scheduled, or with a task in
progress), returns ok, does not abort, sets `currentState` to CLOSED in the call itself,
adds exactly one session-closed notification (and the release of the death recipient) to
the trace, and leaves `scheduledState`, the worker queue and the task in progress
unchanged. -/
theorem close_marks_closed_at_once (w : World) :
    step (.call .close) w = .ok (close w).world ∧
    (close w).status = .ok ∧
    (close w).world.session.mCurrentState = .CLOSED ∧
    (close w).world.trace = w.trace ++ [.callback .onSessionClosed, .deathRecipientDelete] ∧
    (close w).world.session.mScheduledState = w.session.mScheduledState ∧
    (close w).world.queue = w.queue ∧
    (close w).world.running = w.running := by
  simp [step, Call.dispatch, close, World.emit]

/-! ## Pointer and UI signals -/

/-- C13: for each pointer or UI signal (onPointerDown, onPointerUp, onUiReady) and every
world: the call leaves both state fields unchanged and enqueues one task; that task,
run in any world, does not abort, leaves `scheduledState` unchanged, and ends with
`currentState` CLOSED if it was CLOSED before the task and IDLING otherwise. -/
theorem pointer_events_keep_scheduled (c : Call) (w w0 : World)
    (hpointer : c.isPointerEvent = true) :
    (c.dispatch w).world.session = w.session ∧
    ∃ task, (c.dispatch w).world.queue = w.queue ++ [task] ∧
      ∃ w', task.run w0 = .ok w' ∧
        w'.session.mScheduledState = w0.session.mScheduledState ∧
        w'.session.mCurrentState
          = if w0.session.mCurrentState = .CLOSED then .CLOSED else .IDLING := by
  cases c <;> simp [Call.isPointerEvent] at hpointer <;>
    by_cases hclosed : w0.session.mCurrentState = .CLOSED <;>
    simp [Call.dispatch, onPointerDown, onPointerUp, onUiReady, World.schedule, World.emit,
      Callable.run, Callable.stmts, execAll, Stmt.exec, World.enterIdling,
      Session.enterIdling, hclosed]

/-- Witness for C13: onPointerDown requested on a fresh session, its task run while an
authentication is in progress. -/
theorem pointer_events_keep_scheduled_witness :
    (Call.onPointerDown 1 10 20 3 4).isPointerEvent = true ∧
    ((Call.onPointerDown 1 10 20 3 4).dispatch (World.fresh 0 0)).world.session
      = (World.fresh 0 0).session ∧
    ∃ task, ((Call.onPointerDown 1 10 20 3 4).dispatch (World.fresh 0 0)).world.queue
        = (World.fresh 0 0).queue ++ [task] ∧
      ∃ w', task.run { session := Session.mk 0 0 .ENROLLING .AUTHENTICATING, queue := [],
                       running := [], promises := [], trace := [] } = .ok w' ∧
        w'.session.mScheduledState = .ENROLLING ∧
        w'.session.mCurrentState = .IDLING :=
  ⟨rfl, pointer_events_keep_scheduled (.onPointerDown 1 10 20 3 4) (World.fresh 0 0)
    { session := Session.mk 0 0 .ENROLLING .AUTHENTICATING, queue := [],
      running := [], promises := [], trace := [] } rfl⟩

/-! ## What a request does on the side of the caller -/

/-- C14, counterexample: on a freshly constructed session, with no worker step taken,
the call onPointerDown has invoked the Engine (`notifyFingerdown`) and the call close has
invoked the callback sink (`onSessionClosed`). -/
theorem caller_side_invocations :
    step (.call (.onPointerDown 1 10 20 3 4)) (World.fresh 0 0) =
      .ok { session := Session.mk 0 0 .IDLING .IDLING,
            queue := [.onPointerDown 1 10 20 3 4], running := [], promises := [],
            trace := [.engine .notifyFingerdown] } ∧
    step (.call .close) (World.fresh 0 0) =
      .ok { session := Session.mk 0 0 .IDLING .CLOSED, queue := [], running := [],
            promises := [],
            trace := [.callback .onSessionClosed, .deathRecipientDelete] } :=
  ⟨rfl, rfl⟩

/-- C14, amended: every request other than onPointerDown, onPointerDownWithContext and
close leaves the trace unchanged, so it invokes neither the Engine nor the callback sink
on the side of the caller; onPointerDown and onPointerDownWithContext invoke exactly
`notifyFingerdown` on the Engine before enqueuing their task, and close invokes exactly
`onSessionClosed` on the callback sink (and releases the death recipient). -/
theorem caller_side_calls_only_fingerdown_and_closed (toInt32 : F32 → Int) (r : Request)
    (w : World) :
    (r.isPointerDown = false → r ≠ .base .close →
      (r.dispatch toInt32 w).world.trace = w.trace) ∧
    (r.isPointerDown = true →
      (r.dispatch toInt32 w).world.trace = w.trace ++ [.engine .notifyFingerdown]) ∧
    (r = .base .close →
      (r.dispatch toInt32 w).world.trace
        = w.trace ++ [.callback .onSessionClosed, .deathRecipientDelete]) := by
  refine ⟨?_, ?_, ?_⟩
  · intro hp hc
    cases r with
    | base c =>
        cases c <;>
          simp_all [Request.isPointerDown, Request.dispatch, Call.dispatch,
            generateChallenge, revokeChallenge, enroll, authenticate, detectInteraction,
            enumerateEnrollments, removeEnrollments, getAuthenticatorId,
            invalidateAuthenticatorId, resetLockout, onPointerUp, onUiReady, World.schedule,
            World.scheduleStateOrCrash]
    | onPointerDownWithContext context => simp [Request.isPointerDown] at hp
    | _ =>
        simp [Request.dispatch, authenticateWithContext, enrollWithContext,
          detectInteractionWithContext, onPointerUpWithContext, onContextChanged,
          onPointerCancelWithContext, setIgnoreDisplayTouches, authenticate, enroll,
          detectInteraction, onPointerUp, World.schedule, World.scheduleStateOrCrash]
  · intro hp
    cases r with
    | base c =>
        cases c <;> simp [Request.isPointerDown] at hp
        simp [Request.dispatch, Call.dispatch, onPointerDown, World.schedule, World.emit]
    | onPointerDownWithContext context =>
        simp [Request.dispatch, onPointerDownWithContext, onPointerDown, World.schedule,
          World.emit]
    | _ => simp [Request.isPointerDown] at hp
  · intro hc
    subst hc
    simp [Request.dispatch, Call.dispatch, close, World.emit]

/-- Witness for C14 (amended): enroll, onPointerDownWithContext and close on a freshly
constructed session. -/
theorem caller_side_calls_only_fingerdown_and_closed_witness :
    ((Request.base (.enroll ⟨[]⟩)).dispatch (fun _ => 0) (World.fresh 0 0)).world.trace
      = (World.fresh 0 0).trace ∧
    ((Request.onPointerDownWithContext ⟨1, 10, 20, 3, 4, []⟩).dispatch (fun _ => 0)
        (World.fresh 0 0)).world.trace
      = (World.fresh 0 0).trace ++ [.engine .notifyFingerdown] ∧
    ((Request.base .close).dispatch (fun _ => 0) (World.fresh 0 0)).world.trace
      = (World.fresh 0 0).trace ++ [.callback .onSessionClosed, .deathRecipientDelete] :=
  ⟨(caller_side_calls_only_fingerdown_and_closed (fun _ => 0) (.base (.enroll ⟨[]⟩))
      (World.fresh 0 0)).1 rfl (by decide),
    (caller_side_calls_only_fingerdown_and_closed (fun _ => 0)
      (.onPointerDownWithContext ⟨1, 10, 20, 3, 4, []⟩) (World.fresh 0 0)).2.1 rfl,
    (caller_side_calls_only_fingerdown_and_closed (fun _ => 0) (.base .close)
      (World.fresh 0 0)).2.2 rfl⟩

/-- C15: every request of the session (the ten operation requests, the pointer and UI
signals, close, the calls that take a context and the calls that only acknowledge)
returns ok in every world, whatever the two state fields, the worker queue and the
cancellation promises are; the status does not depend on the world, so no operation
outcome is conveyed through it. -/
theorem every_request_returns_ok (toInt32 : F32 → Int) (r : Request) (w : World) :
    (r.dispatch toInt32 w).status = .ok := by
  cases r with
  | base c => cases c <;> rfl
  | _ => rfl

/-! ## Construction -/

/-- C16: the constructor fails a `CHECK` exactly when the sensor identifier or the user
identifier is negative or the callback sink, the Engine or the worker is null; otherwise
it yields a session with the given identifiers and `scheduledState = currentState =
IDLING`, the session of `World.fresh`. -/
theorem constructor_validates (sensorId userId : Int) (cb engine worker : Ptr) :
    (Session.new sensorId userId cb engine worker = none ↔
      sensorId < 0 ∨ userId < 0 ∨ cb = none ∨ engine = none ∨ worker = none) ∧
    (0 ≤ sensorId → 0 ≤ userId → cb ≠ none → engine ≠ none → worker ≠ none →
      Session.new sensorId userId cb engine worker =
        some { mSensorId := sensorId, mUserId := userId, mScheduledState := .IDLING,
               mCurrentState := .IDLING } ∧
      Session.new sensorId userId cb engine worker
        = some (World.fresh sensorId userId).session) := by
  constructor
  · unfold Session.new
    cases cb <;> cases engine <;> cases worker <;>
      by_cases h1 : 0 ≤ sensorId <;> by_cases h2 : 0 ≤ userId <;>
      simp [h1, h2] <;> omega
  · intro h1 h2 hcb hengine hworker
    unfold Session.new
    cases cb <;> cases engine <;> cases worker <;> simp_all [World.fresh]

/-- Witness for C16: valid arguments. -/
theorem constructor_validates_witness :
    (Session.new 3 10 (some 1) (some 2) (some 3) = none ↔
      (3 : Int) < 0 ∨ (10 : Int) < 0 ∨ (some 1 : Ptr) = none ∨ (some 2 : Ptr) = none ∨
        (some 3 : Ptr) = none) ∧
    Session.new 3 10 (some 1) (some 2) (some 3) =
      some { mSensorId := 3, mUserId := 10, mScheduledState := .IDLING,
             mCurrentState := .IDLING } ∧
    Session.new 3 10 (some 1) (some 2) (some 3) = some (World.fresh 3 10).session :=
  ⟨(constructor_validates 3 10 (some 1) (some 2) (some 3)).1,
    (constructor_validates 3 10 (some 1) (some 2) (some 3)).2 (by decide) (by decide)
      (by decide) (by decide) (by decide)⟩

/-! ## The calls that take a context -/

/-- C19: for every context value, each call that takes a context gives the same reply
(the same resulting world, so the same session state and the same queued task, the same
cancel handle and the same status) as the plain call: authenticate, enroll and
detectInteraction with the same arguments, onPointerDown with the pointerId, x, y, minor
and major of the context (x and y converted to the integer parameters), and onPointerUp
with the pointerId of the context. -/
theorem context_calls_equal_plain_calls (toInt32 : F32 → Int) (w : World) :
    (∀ operationId context,
      (Request.authenticateWithContext operationId context).dispatch toInt32 w
        = authenticate operationId w) ∧
    (∀ hat context,
      (Request.enrollWithContext hat context).dispatch toInt32 w = enroll hat w) ∧
    (∀ context,
      (Request.detectInteractionWithContext context).dispatch toInt32 w
        = detectInteraction w) ∧
    (∀ context : PointerContext,
      (Request.onPointerDownWithContext context).dispatch toInt32 w
        = onPointerDown context.pointerId (toInt32 context.x) (toInt32 context.y)
            context.minor context.major w) ∧
    (∀ context : PointerContext,
      (Request.onPointerUpWithContext context).dispatch toInt32 w
        = onPointerUp context.pointerId w) :=
  ⟨fun _ _ => rfl, fun _ _ => rfl, fun _ => rfl, fun _ => rfl, fun _ => rfl⟩

/-! ## Strict alternation -/

/-- The `enterStateOrCrash` statements of a task body: the one of `Callable.enterState`,
if any. -/
theorem filterMap_stmts (task : Callable) :
    task.stmts.filterMap Stmt.enterState = task.enterState.toList := by
  cases task <;> rfl

/-- A request of an operation kind: it returns ok, sets `scheduledState` to the state of
the kind and appends one task of that kind; the rest of the session, the task in progress
and the trace are unchanged. -/
theorem dispatch_kind (c : Call) (state : SessionState) (w : World)
    (hkind : c.kindState = some state) :
    ∃ task, task.enterState = some state ∧ (c.dispatch w).status = .ok ∧
      (c.dispatch w).world.session =
        { mSensorId := w.session.mSensorId, mUserId := w.session.mUserId,
          mScheduledState := state, mCurrentState := w.session.mCurrentState } ∧
      (c.dispatch w).world.queue = w.queue ++ [task] ∧
      (c.dispatch w).world.running = w.running ∧
      (c.dispatch w).world.trace = w.trace := by
  cases c <;> simp [Call.kindState] at hkind <;> subst hkind <;>
    simp [Call.dispatch, generateChallenge, revokeChallenge, enroll, authenticate,
      detectInteraction, enumerateEnrollments, removeEnrollments, getAuthenticatorId,
      invalidateAuthenticatorId, resetLockout, World.schedule, World.scheduleStateOrCrash,
      Session.scheduleStateOrCrash, Callable.enterState, Callable.stmts]

/-- A call that is not of an operation kind (close, pointer and UI signals): it leaves
`scheduledState` and the task in progress unchanged and appends no operation task. -/
theorem dispatch_other (c : Call) (w : World) (hkind : c.kindState = none) :
    (c.dispatch w).world.session.mScheduledState = w.session.mScheduledState ∧
    (c.dispatch w).world.running = w.running ∧
    (c.dispatch w).world.queue.filterMap Callable.enterState
      = w.queue.filterMap Callable.enterState := by
  cases c <;> simp [Call.kindState] at hkind <;>
    simp [Call.dispatch, close, onPointerDown, onPointerUp, onUiReady, World.schedule,
      World.emit, List.filterMap_append, Callable.enterState, Callable.stmts]

/-- A statement other than `enterStateOrCrash` succeeds and leaves `scheduledState`, the
queue and the task in progress unchanged. -/
theorem exec_other (s : Stmt) (w : World) (hs : s.enterState = none) :
    ∃ w', s.exec w = .ok w' ∧ w'.session.mScheduledState = w.session.mScheduledState ∧
      w'.queue = w.queue ∧ w'.running = w.running := by
  cases s with
  | enterStateOrCrash state => simp [Stmt.enterState] at hs
  | engine c => exact ⟨_, exec_engine w c, rfl, rfl, rfl⟩
  | cancelOrEngine cancFuture c => exact ⟨_, exec_cancelOrEngine w cancFuture c, rfl, rfl, rfl⟩
  | enterIdling =>
      exact ⟨_, exec_enterIdling w, enterIdling_scheduledState w.session, rfl, rfl⟩

/-- Under strict alternation a transition does not abort, and it keeps the invariant that
either no operation task is waiting to start and `scheduledState` is IDLING, or exactly
one is and it is of the scheduled kind. -/
theorem alternation_step (a : Action) (w : World) (hturn : a.inTurn w = true)
    (hinv : (w.pendingEnters = [] ∧ w.session.mScheduledState = .IDLING) ∨
      w.pendingEnters = [w.session.mScheduledState]) :
    ∃ w', step a w = .ok w' ∧
      ((w'.pendingEnters = [] ∧ w'.session.mScheduledState = .IDLING) ∨
        w'.pendingEnters = [w'.session.mScheduledState]) := by
  cases a with
  | call c =>
      refine ⟨(c.dispatch w).world, rfl, ?_⟩
      cases hk : c.kindState with
      | none =>
          obtain ⟨h1, h2, h3⟩ := dispatch_other c w hk
          simpa [World.pendingEnters, h1, h2, h3] using hinv
      | some state =>
          obtain ⟨task, ht, -, hsess, hq, hr, -⟩ := dispatch_kind c state w hk
          have hempty : w.pendingEnters = [] := by
            simpa [Action.inTurn, hk] using hturn
          right
          simp only [World.pendingEnters, List.append_eq_nil] at hempty
          simp [World.pendingEnters, hsess, hq, hr, hempty.1, hempty.2,
            List.filterMap_append, ht]
  | cancel handle => exact ⟨_, rfl, by simpa [World.pendingEnters, World.cancel] using hinv⟩
  | clientDeath =>
      refine ⟨_, rfl, ?_⟩
      by_cases hc : w.session.isClosed = true
      · simpa [onClientDeath, hc] using hinv
      · simpa [onClientDeath, hc, close, World.emit, World.pendingEnters] using hinv
  | worker =>
      simp only [step, workerStep]
      cases hr : w.running with
      | nil =>
          cases hq : w.queue with
          | nil => exact ⟨w, rfl, hinv⟩
          | cons task pending =>
              refine ⟨_, rfl, ?_⟩
              simp only [World.pendingEnters, hr, hq, List.filterMap_nil, List.nil_append,
                filterMap_stmts] at hinv ⊢
              cases ht : task.enterState <;>
                simpa [List.filterMap_cons, ht] using hinv
      | cons s rest =>
          cases hs : s.enterState with
          | none =>
              obtain ⟨w1, hexec, h1, h2, h3⟩ := exec_other s w hs
              refine ⟨{ w1 with running := rest }, by simp [hexec], ?_⟩
              simpa [World.pendingEnters, hr, h1, h2, List.filterMap_cons, hs] using hinv
          | some state =>
              have hpending : w.pendingEnters =
                  state :: (rest.filterMap Stmt.enterState ++
                    w.queue.filterMap Callable.enterState) := by
                simp [World.pendingEnters, hr, List.filterMap_cons, hs]
              have hexec : s = .enterStateOrCrash state := by
                cases s <;> simp [Stmt.enterState] at hs
                rw [hs]
              subst hexec
              rw [hpending] at hinv
              rcases hinv with h | h
              · exact absurd h.1 (List.cons_ne_nil _ _)
              · obtain ⟨hsched, htail⟩ := List.cons.inj h
                obtain ⟨hrest, hqueue⟩ := List.append_eq_nil.mp htail
                refine ⟨{ session := { mSensorId := w.session.mSensorId,
                                       mUserId := w.session.mUserId,
                                       mScheduledState := .IDLING, mCurrentState := state },
                          queue := w.queue, running := rest, promises := w.promises,
                          trace := w.trace }, ?_, ?_⟩
                · simp [exec_enterStateOrCrash, World.enterStateOrCrash,
                    Session.enterStateOrCrash, ← hsched]
                · left
                  simp [World.pendingEnters, hrest, hqueue]

/-- The invariant of `alternation_step` along a run under strict alternation. -/
theorem alternation_run (as : List Action) (w : World) (halt : alternating as w = true)
    (hinv : (w.pendingEnters = [] ∧ w.session.mScheduledState = .IDLING) ∨
      w.pendingEnters = [w.session.mScheduledState]) :
    ∃ w', run as w = .ok w' ∧
      ((w'.pendingEnters = [] ∧ w'.session.mScheduledState = .IDLING) ∨
        w'.pendingEnters = [w'.session.mScheduledState]) := by
  induction as generalizing w with
  | nil => exact ⟨w, rfl, hinv⟩
  | cons a rest ih =>
      simp only [alternating, Bool.and_eq_true] at halt
      obtain ⟨w1, hstep, hinv1⟩ := alternation_step a w halt.1 hinv
      rw [hstep] at halt
      obtain ⟨w2, hrun, hinv2⟩ := ih w1 halt.2 hinv1
      exact ⟨w2, by simp [run, hstep, hrun], hinv2⟩

/-- C17: from a freshly constructed session, along every sequence of binder calls,
cancellations, client-death notifications and worker steps in which each operation
request is made when no task of an earlier operation request is still waiting to start
(in particular when those tasks were run to completion; pointer and UI signals and close
may occur anywhere), the run does not abort, so no task fails the check of
`enterStateOrCrash`; and in the world reached either no operation task is waiting to
start and `scheduledState` is IDLING, or exactly one is and it is of the scheduled
kind. -/
theorem enter_check_unreachable_in_turn (sensorId userId : Int) (as : List Action)
    (halt : alternating as (World.fresh sensorId userId) = true) :
    ∃ w', run as (World.fresh sensorId userId) = .ok w' ∧
      ((w'.pendingEnters = [] ∧ w'.session.mScheduledState = .IDLING) ∨
        w'.pendingEnters = [w'.session.mScheduledState]) :=
  alternation_run as (World.fresh sensorId userId) halt (Or.inl ⟨rfl, rfl⟩)

/-- Witness for C17: enroll with a pointer signal behind it, both tasks run, a close in
between, then authenticate requested and its task entered. -/
theorem enter_check_unreachable_in_turn_witness :
    alternating [.call (.enroll ⟨[]⟩), .call (.onPointerDown 1 10 20 3 4), .worker, .worker,
        .worker, .worker, .call .close, .worker, .worker, .worker,
        .call (.authenticate 1), .worker, .worker] (World.fresh 0 0) = true ∧
    ∃ w', run [.call (.enroll ⟨[]⟩), .call (.onPointerDown 1 10 20 3 4), .worker, .worker,
        .worker, .worker, .call .close, .worker, .worker, .worker,
        .call (.authenticate 1), .worker, .worker] (World.fresh 0 0) = .ok w' ∧
      ((w'.pendingEnters = [] ∧ w'.session.mScheduledState = .IDLING) ∨
        w'.pendingEnters = [w'.session.mScheduledState]) :=
  ⟨by decide,
    enter_check_unreachable_in_turn 0 0
      [.call (.enroll ⟨[]⟩), .call (.onPointerDown 1 10 20 3 4), .worker, .worker,
        .worker, .worker, .call .close, .worker, .worker, .worker,
        .call (.authenticate 1), .worker, .worker] (by decide)⟩

/-! ## Overlapping requests -/

/-- A task of an operation kind, started while another state is scheduled, aborts in the
world in which it started. -/
theorem run_enter_mismatch (task : Callable) (state : SessionState) (w : World)
    (htask : task.enterState = some state) (hne : w.session.mScheduledState ≠ state) :
    task.run w = .error w := by
  cases task <;> simp [Callable.enterState, Callable.stmts] at htask <;> subst htask <;>
    simp [Callable.run, Callable.stmts, execAll, exec_enterStateOrCrash,
      World.enterStateOrCrash, Session.enterStateOrCrash, hne]

/-- A task of an operation kind, started while its kind is scheduled, runs to its end and
leaves `scheduledState` IDLING. -/
theorem run_enter_match (task : Callable) (state : SessionState) (w : World)
    (htask : task.enterState = some state) (hs : w.session.mScheduledState = state) :
    ∃ w', task.run w = .ok w' ∧ w'.session.mScheduledState = .IDLING := by
  cases task <;> simp [Callable.enterState, Callable.stmts] at htask <;> subst htask <;>
    simp [Callable.run, Callable.stmts, execAll, exec_enterStateOrCrash, exec_engine,
      exec_cancelOrEngine, exec_enterIdling, World.enterStateOrCrash,
      Session.enterStateOrCrash, World.emit, World.enterIdling, Session.enterIdling, hs]

/-- The state of an operation kind is neither IDLING nor CLOSED. -/
theorem kindState_isOperation (c : Call) (state : SessionState)
    (hkind : c.kindState = some state) : state.isOperation = true := by
  cases c <;> simp [Call.kindState] at hkind <;> subst hkind <;> rfl

/-- The worker, idle and with a task of an operation kind at the head of the queue while
that kind is scheduled, runs the task to its end in four steps and leaves
`scheduledState` IDLING. -/
theorem worker_runs_task (task : Callable) (state : SessionState) (pending : List Callable)
    (w : World) (htask : task.enterState = some state) (hr : w.running = [])
    (hq : w.queue = task :: pending) (hs : w.session.mScheduledState = state) :
    ∃ w', run [.worker, .worker, .worker, .worker] w = .ok w' ∧ w'.running = [] ∧
      w'.queue = pending ∧ w'.session.mScheduledState = .IDLING := by
  cases task <;> simp [Callable.enterState, Callable.stmts] at htask <;> subst htask <;>
    simp [run, step, workerStep, Callable.stmts, exec_enterStateOrCrash, exec_engine,
      exec_cancelOrEngine, exec_enterIdling, World.enterStateOrCrash,
      Session.enterStateOrCrash, World.emit, World.enterIdling, Session.enterIdling,
      hr, hq, hs]

/-- The worker, idle and with a task of an operation kind at the head of the queue while
another state is scheduled, dequeues the task and aborts at its first statement. -/
theorem worker_aborts_task (task : Callable) (state : SessionState)
    (pending : List Callable) (w : World) (htask : task.enterState = some state)
    (hr : w.running = []) (hq : w.queue = task :: pending)
    (hne : w.session.mScheduledState ≠ state) :
    run [.worker, .worker] w = .error { w with queue := pending, running := task.stmts } := by
  cases task <;> simp [Callable.enterState, Callable.stmts] at htask <;> subst htask <;>
    simp [run, step, workerStep, Callable.stmts, exec_enterStateOrCrash,
      World.enterStateOrCrash, Session.enterStateOrCrash, hr, hq, hne]

/-- C18: for every pair of operation requests A and B, of equal or different kinds, with
B made right after A and before the task of A has run: both calls return ok and the
queue holds the task of A followed by the task of B. Running the two tasks in that order
fails the check of `enterStateOrCrash`: in the task of A when the kinds differ, and in
the task of B, after the task of A ran to its end, when the kinds are equal. The same
happens when the worker, idle at the time of the calls, runs the queue. -/
theorem overlapping_requests_hit_enter_check (cA cB : Call) (sA sB : SessionState)
    (w : World) (hA : cA.kindState = some sA) (hB : cB.kindState = some sB) :
    (cA.dispatch w).status = .ok ∧
    (cB.dispatch (cA.dispatch w).world).status = .ok ∧
    ∃ tA tB,
      (cB.dispatch (cA.dispatch w).world).world.queue = w.queue ++ [tA, tB] ∧
      tA.enterState = some sA ∧ tB.enterState = some sB ∧
      (sA ≠ sB →
        tA.run (cB.dispatch (cA.dispatch w).world).world
          = .error (cB.dispatch (cA.dispatch w).world).world) ∧
      (sA = sB →
        ∃ w3, tA.run (cB.dispatch (cA.dispatch w).world).world = .ok w3 ∧
          tB.run w3 = .error w3) ∧
      (w.running = [] → w.queue = [] →
        (sA ≠ sB →
          ∃ e, run [.call cA, .call cB, .worker, .worker] w = .error e ∧
            e.running = tA.stmts ∧ e.queue = [tB]) ∧
        (sA = sB →
          ∃ e, run [.call cA, .call cB, .worker, .worker, .worker, .worker, .worker,
              .worker] w = .error e ∧
            e.running = tB.stmts ∧ e.queue = [])) := by
  obtain ⟨tA, htA, hokA, hsessA, hqA, hrA, -⟩ := dispatch_kind cA sA w hA
  obtain ⟨tB, htB, hokB, hsessB, hqB, hrB, -⟩ :=
    dispatch_kind cB sB (cA.dispatch w).world hB
  have hsched : (cB.dispatch (cA.dispatch w).world).world.session.mScheduledState = sB := by
    rw [hsessB]
  have hidle : sB ≠ .IDLING := by
    intro h
    have := kindState_isOperation cB sB hB
    rw [h] at this
    cases this
  refine ⟨hokA, hokB, tA, tB, by simp [hqB, hqA], htA, htB, ?_, ?_, ?_⟩
  · intro hne
    exact run_enter_mismatch tA sA _ htA (by rw [hsched]; exact fun h => hne h.symm)
  · intro heq
    obtain ⟨w3, hrun, hs3⟩ := run_enter_match tA sA _ htA (by rw [hsched, heq])
    exact ⟨w3, hrun, run_enter_mismatch tB sB w3 htB (by rw [hs3]; exact fun h => hidle h.symm)⟩
  · intro hr hq
    have hcalls : run [.call cA, .call cB] w = .ok (cB.dispatch (cA.dispatch w).world).world :=
      rfl
    have hr2 : (cB.dispatch (cA.dispatch w).world).world.running = [] := by
      rw [hrB, hrA, hr]
    have hq2 : (cB.dispatch (cA.dispatch w).world).world.queue = tA :: [tB] := by
      rw [hqB, hqA, hq]
      rfl
    constructor
    · intro hne
      refine ⟨{ (cB.dispatch (cA.dispatch w).world).world with
                  queue := [tB], running := tA.stmts }, ?_, rfl, rfl⟩
      have h := run_append [.call cA, .call cB] [.worker, .worker] w _ hcalls
      simp only [List.cons_append, List.nil_append] at h
      rw [h]
      exact worker_aborts_task tA sA [tB] _ htA hr2 hq2
        (by rw [hsched]; exact fun h => hne h.symm)
    · intro heq
      obtain ⟨w3, hrun3, hr3, hq3, hs3⟩ :=
        worker_runs_task tA sA [tB] _ htA hr2 hq2 (by rw [hsched, heq])
      refine ⟨{ w3 with queue := [], running := tB.stmts }, ?_, rfl, rfl⟩
      have h := run_append [.call cA, .call cB]
        [.worker, .worker, .worker, .worker, .worker, .worker] w _ hcalls
      simp only [List.cons_append, List.nil_append] at h
      rw [h]
      have h' := run_append [.worker, .worker, .worker, .worker] [.worker, .worker] _ w3 hrun3
      simp only [List.cons_append, List.nil_append] at h'
      rw [h']
      exact worker_aborts_task tB sB [] w3 htB hr3 hq3
        (by rw [hs3]; exact fun h => hidle h.symm)

/-- Witness for C18: enroll then authenticate (different kinds), and revokeChallenge twice
(equal kinds), on a freshly constructed session. -/
theorem overlapping_requests_hit_enter_check_witness :
    (∃ tA tB,
      ((Call.authenticate 1).dispatch ((Call.enroll ⟨[]⟩).dispatch (World.fresh 0 0)).world
        ).world.queue = (World.fresh 0 0).queue ++ [tA, tB] ∧
      tA.run ((Call.authenticate 1).dispatch
          ((Call.enroll ⟨[]⟩).dispatch (World.fresh 0 0)).world).world
        = .error ((Call.authenticate 1).dispatch
            ((Call.enroll ⟨[]⟩).dispatch (World.fresh 0 0)).world).world ∧
      ∃ e, run [.call (.enroll ⟨[]⟩), .call (.authenticate 1), .worker, .worker]
          (World.fresh 0 0) = .error e ∧
        e.running = tA.stmts ∧ e.queue = [tB]) ∧
    (∃ tA tB,
      ((Call.revokeChallenge 2).dispatch
        ((Call.revokeChallenge 1).dispatch (World.fresh 0 0)).world).world.queue
        = (World.fresh 0 0).queue ++ [tA, tB] ∧
      (∃ w3, tA.run ((Call.revokeChallenge 2).dispatch
            ((Call.revokeChallenge 1).dispatch (World.fresh 0 0)).world).world = .ok w3 ∧
        tB.run w3 = .error w3) ∧
      ∃ e, run [.call (.revokeChallenge 1), .call (.revokeChallenge 2), .worker, .worker,
          .worker, .worker, .worker, .worker] (World.fresh 0 0) = .error e ∧
        e.running = tB.stmts ∧ e.queue = []) :=
  ⟨(let ⟨_, _, tA, tB, hqueue, _, _, hdiff, _, hworker⟩ :=
      overlapping_requests_hit_enter_check (.enroll ⟨[]⟩) (.authenticate 1) .ENROLLING
        .AUTHENTICATING (World.fresh 0 0) rfl rfl
    ⟨tA, tB, hqueue, hdiff (by decide), (hworker rfl rfl).1 (by decide)⟩),
    (let ⟨_, _, tA, tB, hqueue, _, _, _, hsame, hworker⟩ :=
      overlapping_requests_hit_enter_check (.revokeChallenge 1) (.revokeChallenge 2)
        .REVOKING_CHALLENGE .REVOKING_CHALLENGE (World.fresh 0 0) rfl rfl
    ⟨tA, tB, hqueue, hsame rfl, (hworker rfl rfl).2 rfl⟩)⟩

end Fingerprint
